import Mathlib

/-!
# weixin-mp-api: credential lifecycle of the WeChat client

Shallow embedding of `wechat/models.go`, `wechat/utils.go`, `wechat/wechat.go`
and of `GetQrCode`, `SendMessage` and `SendMessageWithTemplate` of
`wechat/miniapp.go`. `GetUserPhoneNumber` is not embedded: its request registers
`SetResult` and `SetError`, so what `resp.Bytes()` holds there is decided inside
the HTTP client.

Conventions of the embedding.

* A Go `error` value is a `GoError`; a possibly-nil `error` is `Option GoError`.
* A Go result pair `(v, err)` is a Lean pair with `Option GoError` second.
* The collaborators the client talks to (the `Cache` interface, the HTTP
  client, `json.Unmarshal`) are the fields of `Env`; they act on an arbitrary
  external state `σ`.
* Every function returns, next to its result and the new external state, the
  trace of what it did: the cache reads and writes and the HTTP requests
  (`Effect`), and for `withAccessToken` also the calls of `GetAccessToken`
  and of `task` (`Event`).
* `singleflight.Group.Do(key, fn)` with a single caller runs `fn` once and
  returns its result; the embedding is sequential.
-/

namespace Wechat

/-! ## Errors (models.go) -/

/-- Go error values that occur in the package. -/
inductive GoError where
  /-- The sentinel `ErrorInvalidCredential = errors.New("invalid credential")`. -/
  | ErrorInvalidCredential : GoError
  /-- The sentinel `ErrorAccessTokenExpired = errors.New("access token expired")`. -/
  | ErrorAccessTokenExpired : GoError
  /-- The sentinel `ErrorInvalidAccessToken = errors.New("invalid access token")`. -/
  | ErrorInvalidAccessToken : GoError
  /-- A value of type `ErrResponse`. -/
  | ErrResponse (ErrCode : Int) (ErrMsg : String) : GoError
  /-- A pointer `&ErrResponse{...}` (dynamic type `*ErrResponse`). -/
  | ErrResponsePtr (ErrCode : Int) (ErrMsg : String) : GoError
  /-- Any other error: transport, JSON decoding, `fmt.Errorf`, cache backend. -/
  | other (msg : String) : GoError
  /-- An error that wraps another one (has an `Unwrap` method). -/
  | wrapped (msg : String) (inner : GoError) : GoError
  /-- A nil pointer dereference (a run-time panic, never an `error` value). -/
  | nilDereference : GoError
  deriving DecidableEq, Repr

/-- The library function `errors.Is`: equality with the target somewhere along the `Unwrap` chain. -/
def errorsIs : GoError → GoError → Bool
  | .wrapped msg inner, target =>
      decide (GoError.wrapped msg inner = target) || errorsIs inner target
  | err, target => decide (err = target)

def ErrCodeInvalidCredential : Int := 40001
def ErrCodeAccessTokenExpired : Int := 42001
def ErrCodeInvalidAccessToken : Int := 40014

/-- Source: `isNeedRetryError` (models.go). -/
def isNeedRetryError (err : GoError) : Bool :=
  if errorsIs err .ErrorInvalidCredential then true
  else if errorsIs err .ErrorAccessTokenExpired then true
  else if errorsIs err .ErrorInvalidAccessToken then true
  else false

/-- Source: `checkResponseError` (models.go). -/
def checkResponseError (errCode : Int) (errMsg : String) : Option GoError :=
  if errCode = ErrCodeInvalidCredential then some .ErrorInvalidCredential
  else if errCode = ErrCodeAccessTokenExpired then some .ErrorAccessTokenExpired
  else if errCode = ErrCodeInvalidAccessToken then some .ErrorInvalidAccessToken
  else if errCode ≠ 0 then some (.ErrResponse errCode errMsg)
  else none

/-! ## Call options (utils.go) -/

/-- Source: `requestOptions` (utils.go). -/
structure requestOptions where
  retryable : Bool
  reloadAccessToken : Bool
  deriving DecidableEq, Repr

/-- Source: `RequestOption = func(*requestOptions)`: an update of the options record. -/
abbrev RequestOption := requestOptions → requestOptions

/-- Source: `newRequestOptions` (utils.go): the defaults, then every option applied in order. -/
def newRequestOptions (opts : List RequestOption) : requestOptions :=
  opts.foldl (fun defaults opt => opt defaults) { retryable := true, reloadAccessToken := false }

/-- Source: `WithRetryable` (utils.go). -/
def WithRetryable (retryable : Bool) : RequestOption :=
  fun opts => { opts with retryable := retryable }

/-- Source: `WithReloadAccessToken` (utils.go). -/
def WithReloadAccessToken (reload : Bool) : RequestOption :=
  fun opts => { opts with reloadAccessToken := reload }

/-- Source: `WithClone` (utils.go). -/
def WithClone (opts : requestOptions) : RequestOption :=
  fun o => { o with retryable := opts.retryable, reloadAccessToken := opts.reloadAccessToken }

/-! ## Payloads (models.go) -/

/-- Source: `Config` (wechat.go); `Env` is the `MiniAppEnv` string. -/
structure Config where
  AppID : String
  AppSecret : String
  Proxy : String
  Env : String
  deriving DecidableEq, Repr

/-- Source: `ErrResponse` (models.go). -/
structure ErrResponse where
  ErrCode : Int
  ErrMsg : String
  deriving DecidableEq, Repr

/-- Source: `AccessTokenResponse` (models.go), which embeds `ErrResponse`. -/
structure AccessTokenResponse extends ErrResponse where
  AccessToken : String
  ExpiresIn : Int
  deriving DecidableEq, Repr

/-- Source: `JsTicketResponse` (models.go), which embeds `ErrResponse`. -/
structure JsTicketResponse extends ErrResponse where
  Ticket : String
  ExpiresIn : Int
  deriving DecidableEq, Repr

/-- Source: `QrCodeRequest` (models.go). -/
structure QrCodeRequest where
  Scene : String
  Page : String
  CheckPath : Bool
  EnvVersion : String
  Width : Int
  AutoColor : Bool
  LineColor : String
  IsHyaline : Bool
  deriving DecidableEq, Repr

/-- Source: `SubscribeMessageRequest` (models.go); a `Data` value is kept as its text. -/
structure SubscribeMessageRequest where
  TemplateID : String
  Page : String
  ToUser : String
  Data : List (String × String)
  MiniProgramState : String
  Lang : String
  deriving DecidableEq, Repr

/-! ## The collaborators: HTTP client, cache, JSON decoding -/

/-- What `SetBody` was given. -/
inductive RequestBody where
  | empty : RequestBody
  | qrCode (code : QrCodeRequest) : RequestBody
  | subscribeMessage (msg : SubscribeMessageRequest) : RequestBody
  deriving DecidableEq, Repr

/-- A request built with `w.client.R()`: verb, path under the base URL, query parameters, body. -/
structure Request where
  method : String
  path : String
  query : List (String × String)
  body : RequestBody
  deriving DecidableEq, Repr

/-- What the code reads of a `*resty.Response`. -/
structure Response where
  StatusCode : Int
  Status : String
  Bytes : String
  deriving DecidableEq, Repr

/-- The library method `Response.IsSuccess`: status code in 200..299. -/
def Response.IsSuccess (resp : Response) : Bool :=
  decide (199 < resp.StatusCode) && decide (resp.StatusCode < 300)

/-- The library method `Response.IsError`: status code above 399. -/
def Response.IsError (resp : Response) : Bool :=
  decide (399 < resp.StatusCode)

/-- The collaborators of a `Wechat` client, acting on an external state `σ`:
its `config`, the `Cache` interface (`Get`, `SetWithTTL`, the ttl in nanoseconds),
the HTTP client, and `json.Unmarshal` at each payload type. -/
structure Env (σ : Type) where
  config : Config
  cacheGet : String → σ → (String × Bool × Option GoError) × σ
  cacheSetWithTTL : String → String → Int → σ → Option GoError × σ
  httpExecute : Request → σ → Except GoError Response × σ
  unmarshalErrResponse : String → Except GoError ErrResponse
  unmarshalAccessToken : String → Except GoError AccessTokenResponse
  unmarshalJsTicket : String → Except GoError JsTicketResponse

/-- An interaction with a collaborator. -/
inductive Effect where
  | cacheGet (key : String) : Effect
  | cacheSetWithTTL (key value : String) (ttl : Int) : Effect
  | http (req : Request) : Effect
  deriving DecidableEq, Repr

/-- An entry of the trace of `withAccessToken`: an interaction with a collaborator, a call
`GetAccessToken(ctx, reload)`, or a call `task(ctx, accessToken)`. -/
inductive Event where
  | effect (e : Effect) : Event
  | getAccessToken (reload : Bool) : Event
  | task (accessToken : String) : Event
  deriving DecidableEq, Repr

/-- A `task func(ctx, accessToken) (*T, error)`: it reads and writes the variables it
captures (`τ`) and the external state, and interacts with the collaborators. -/
abbrev Task (σ τ T : Type) :=
  String → τ → σ → (Option T × Option GoError) × τ × σ × List Effect

/-! ## Durations -/

/-- Two's-complement wrap-around of 64-bit signed arithmetic (`int`, `time.Duration`). -/
def wrapInt64 (n : Int) : Int :=
  (n + 9223372036854775808) % 18446744073709551616 - 9223372036854775808

/-- The constant `time.Second`, in nanoseconds. -/
def Second : Int := 1000000000

/-- Source: `time.Duration(result.ExpiresIn-2)*time.Second` (wechat.go), in nanoseconds. -/
def cacheTTL (expiresIn : Int) : Int :=
  wrapInt64 (wrapInt64 (expiresIn - 2) * Second)

/-! ## Response decoding (models.go) -/

/-- Source: `loadSuccessResponse` (models.go). -/
def loadSuccessResponse {σ T : Type} (env : Env σ) (unmarshal : String → Except GoError T)
    (resp : Response) (check : T → Option GoError) : Option T × Option GoError :=
  if resp.IsError then
    match env.unmarshalErrResponse resp.Bytes with
    | .error err => (none, some err)
    | .ok result => (none, some (.ErrResponse result.ErrCode result.ErrMsg))
  else if resp.IsSuccess then
    match unmarshal resp.Bytes with
    | .error err => (none, some err)
    | .ok result =>
      match check result with
      | some err => (none, some err)
      | none => (some result, none)
  else (none, some (.other ("unknown error: " ++ resp.Status)))

/-! ## The credential provider and the bound-call executor (wechat.go) -/

/-- The request of `GetAccessToken` to the token endpoint. -/
def accessTokenRequest (config : Config) : Request :=
  { method := "GET", path := "/cgi-bin/token",
    query := [("grant_type", "client_credential"), ("appid", config.AppID),
      ("secret", config.AppSecret)],
    body := .empty }

/-- Source: the function `GetAccessToken` hands to `w.sf.Do` (wechat.go). -/
def fetchAccessToken {σ : Type} (env : Env σ) (x : σ) :
    (String × Option GoError) × σ × List Effect :=
  match env.httpExecute (accessTokenRequest env.config) x with
  | (.error err, x1) => (("", some err), x1, [.http (accessTokenRequest env.config)])
  | (.ok resp, x1) =>
    match loadSuccessResponse env env.unmarshalAccessToken resp
        (fun a => checkResponseError a.ErrCode a.ErrMsg) with
    | (_, some err) => (("", some err), x1, [.http (accessTokenRequest env.config)])
    | (none, none) => (("", some .nilDereference), x1, [.http (accessTokenRequest env.config)])
    | (some result, none) =>
      match env.cacheSetWithTTL "AccessToken" result.AccessToken (cacheTTL result.ExpiresIn) x1 with
      | (_, x2) =>
        ((result.AccessToken, none), x2,
          [.http (accessTokenRequest env.config),
           .cacheSetWithTTL "AccessToken" result.AccessToken (cacheTTL result.ExpiresIn)])

/-- Source: `GetAccessToken` (wechat.go). -/
def GetAccessToken {σ : Type} (env : Env σ) (reload : Bool) (x : σ) :
    (String × Option GoError) × σ × List Effect :=
  if !reload then
    match env.cacheGet "AccessToken" x with
    | ((_, _, some err), x1) => (("", some err), x1, [.cacheGet "AccessToken"])
    | ((token, true, none), x1) => ((token, none), x1, [.cacheGet "AccessToken"])
    | ((_, false, none), x1) =>
      match fetchAccessToken env x1 with
      | (r, x2, tr) => (r, x2, .cacheGet "AccessToken" :: tr)
  else fetchAccessToken env x

/-- Source: `withAccessToken` (wechat.go). The trace lists, in order, each call of
`GetAccessToken` with what it did, and each call of `task` with what it did. -/
def withAccessToken {σ τ T : Type} (env : Env σ) (task : Task σ τ T)
    (options : List RequestOption) (t : τ) (x : σ) :
    (Option T × Option GoError) × τ × σ × List Event :=
  match GetAccessToken env (newRequestOptions options).reloadAccessToken x with
  | ((_, some err), x1, tr1) =>
    ((none, some err), t, x1,
      .getAccessToken (newRequestOptions options).reloadAccessToken :: tr1.map .effect)
  | ((token, none), x1, tr1) =>
    match task token t x1 with
    | ((resp, none), t2, x2, tr2) =>
      ((resp, none), t2, x2,
        .getAccessToken (newRequestOptions options).reloadAccessToken :: tr1.map .effect
          ++ .task token :: tr2.map .effect)
    | ((_, some err), t2, x2, tr2) =>
      if h : (newRequestOptions options).retryable = true ∧ isNeedRetryError err = true then
        match withAccessToken env task
            [WithClone { retryable := false, reloadAccessToken := true }] t2 x2 with
        | (r, t3, x3, tr3) =>
          (r, t3, x3,
            .getAccessToken (newRequestOptions options).reloadAccessToken :: tr1.map .effect
              ++ .task token :: tr2.map .effect ++ tr3)
      else
        ((none, some err), t2, x2,
          .getAccessToken (newRequestOptions options).reloadAccessToken :: tr1.map .effect
            ++ .task token :: tr2.map .effect)
termination_by (if (newRequestOptions options).retryable = true then 1 else 0)
decreasing_by
  rw [if_pos h.1]
  simp [newRequestOptions, WithClone]

/-- The request of `GetJsTicket` to the ticket endpoint. -/
def jsTicketRequest (accessToken : String) : Request :=
  { method := "GET", path := "/cgi-bin/ticket/getticket",
    query := [("access_token", accessToken), ("type", "jsapi")],
    body := .empty }

/-- Source: the task `GetJsTicket` hands to `withAccessToken` (wechat.go). -/
def jsTicketTask {σ : Type} (env : Env σ) : Task σ Unit JsTicketResponse :=
  fun accessToken t x =>
    match env.httpExecute (jsTicketRequest accessToken) x with
    | (.error err, x1) => ((none, some err), t, x1, [.http (jsTicketRequest accessToken)])
    | (.ok resp, x1) =>
      (loadSuccessResponse env env.unmarshalJsTicket resp
          (fun a => checkResponseError a.ErrCode a.ErrMsg),
        t, x1, [.http (jsTicketRequest accessToken)])

/-- Source: the function `GetJsTicket` hands to `w.sf.Do` (wechat.go). -/
def fetchJsTicket {σ : Type} (env : Env σ) (x : σ) :
    (String × Option GoError) × σ × List Event :=
  match withAccessToken env (jsTicketTask env) [] () x with
  | ((_, some err), _, x1, tr) => (("", some err), x1, tr)
  | ((none, none), _, x1, tr) => (("", some .nilDereference), x1, tr)
  | ((some ticket, none), _, x1, tr) =>
    match env.cacheSetWithTTL "JsTicket" ticket.Ticket (cacheTTL ticket.ExpiresIn) x1 with
    | (_, x2) =>
      ((ticket.Ticket, none), x2,
        tr ++ [.effect (.cacheSetWithTTL "JsTicket" ticket.Ticket (cacheTTL ticket.ExpiresIn))])

/-- Source: `GetJsTicket` (wechat.go). -/
def GetJsTicket {σ : Type} (env : Env σ) (reload : Bool) (x : σ) :
    (String × Option GoError) × σ × List Event :=
  if !reload then
    match env.cacheGet "JsTicket" x with
    | ((_, _, some err), x1) => (("", some err), x1, [.effect (.cacheGet "JsTicket")])
    | ((token, true, none), x1) => ((token, none), x1, [.effect (.cacheGet "JsTicket")])
    | ((_, false, none), x1) =>
      match fetchJsTicket env x1 with
      | (r, x2, tr) => (r, x2, .effect (.cacheGet "JsTicket") :: tr)
  else fetchJsTicket env x

/-! ## Protected endpoints (miniapp.go) -/

/-- Source: the local type `Image` of `GetQrCode` (miniapp.go). -/
structure Image where
  raw : String
  deriving DecidableEq, Repr

/-- The request of `GetQrCode`. -/
def qrCodeRequest (accessToken : String) (code : QrCodeRequest) : Request :=
  { method := "POST", path := "/wxa/getwxacodeunlimit",
    query := [("access_token", accessToken)],
    body := .qrCode code }

/-- Source: the task `GetQrCode` hands to `withAccessToken` (miniapp.go). -/
def qrCodeTask {σ : Type} (env : Env σ) (code : QrCodeRequest) : Task σ Unit Image :=
  fun accessToken t x =>
    match env.httpExecute (qrCodeRequest accessToken code) x with
    | (.error err, x1) => ((none, some err), t, x1, [.http (qrCodeRequest accessToken code)])
    | (.ok resp, x1) =>
      if resp.StatusCode = 200 then
        ((some { raw := resp.Bytes }, none), t, x1, [.http (qrCodeRequest accessToken code)])
      else
        match env.unmarshalErrResponse resp.Bytes with
        | .error err => ((none, some err), t, x1, [.http (qrCodeRequest accessToken code)])
        | .ok errResp =>
          ((none, some (.ErrResponsePtr errResp.ErrCode errResp.ErrMsg)), t, x1,
            [.http (qrCodeRequest accessToken code)])

/-- Source: `GetQrCode` (miniapp.go). -/
def GetQrCode {σ : Type} (env : Env σ) (code : QrCodeRequest) (options : List RequestOption)
    (x : σ) : (Option String × Option GoError) × σ × List Event :=
  match withAccessToken env (qrCodeTask env code) options () x with
  | ((_, some err), _, x1, tr) => ((none, some err), x1, tr)
  | ((none, none), _, x1, tr) => ((none, some .nilDereference), x1, tr)
  | ((some image, none), _, x1, tr) => ((some image.raw, none), x1, tr)

/-- The request of `SendMessage`. -/
def subscribeSendRequest (accessToken : String) (msg : SubscribeMessageRequest) : Request :=
  { method := "POST", path := "/cgi-bin/message/subscribe/send",
    query := [("access_token", accessToken)],
    body := .subscribeMessage msg }

/-- Source: the head of the task of `SendMessage` (miniapp.go): an empty
`MiniProgramState` is filled in from the configured environment. -/
def fillMiniProgramState (config : Config) (msg : SubscribeMessageRequest) :
    SubscribeMessageRequest :=
  if msg.MiniProgramState = "" then
    if config.Env = "release" then { msg with MiniProgramState := "formal" }
    else if config.Env = "trial" then { msg with MiniProgramState := "trial" }
    else if config.Env = "develop" then { msg with MiniProgramState := "developer" }
    else msg
  else msg

/-- Source: the task `SendMessage` hands to `withAccessToken` (miniapp.go); the captured
variable is the message `msg` points to. -/
def sendMessageTask {σ : Type} (env : Env σ) : Task σ SubscribeMessageRequest ErrResponse :=
  fun accessToken msg x =>
    match env.httpExecute
        (subscribeSendRequest accessToken (fillMiniProgramState env.config msg)) x with
    | (.error err, x1) =>
      ((none, some err), fillMiniProgramState env.config msg, x1,
        [.http (subscribeSendRequest accessToken (fillMiniProgramState env.config msg))])
    | (.ok resp, x1) =>
      match loadSuccessResponse env env.unmarshalErrResponse resp
          (fun a => if a.ErrCode ≠ 0 then checkResponseError a.ErrCode a.ErrMsg else none) with
      | (_, some err) =>
        ((none, some err), fillMiniProgramState env.config msg, x1,
          [.http (subscribeSendRequest accessToken (fillMiniProgramState env.config msg))])
      | (_, none) =>
        ((none, none), fillMiniProgramState env.config msg, x1,
          [.http (subscribeSendRequest accessToken (fillMiniProgramState env.config msg))])

/-- Source: `SendMessage` (miniapp.go); returns the error and the message as it is left. -/
def SendMessage {σ : Type} (env : Env σ) (msg : SubscribeMessageRequest)
    (options : List RequestOption) (x : σ) :
    Option GoError × SubscribeMessageRequest × σ × List Event :=
  match withAccessToken env (sendMessageTask env) options msg x with
  | ((_, err), msg1, x1, tr) => (err, msg1, x1, tr)

/-! ## Reading a trace -/

/-- The access tokens `task` was called with, in order. -/
def taskCalls (tr : List Event) : List String :=
  tr.filterMap fun
    | .task accessToken => some accessToken
    | _ => none

/-- The `reload` arguments `GetAccessToken` was called with, in order. -/
def getAccessTokenCalls (tr : List Event) : List Bool :=
  tr.filterMap fun
    | .getAccessToken reload => some reload
    | _ => none

/-- The HTTP requests sent, in order. -/
def httpRequests (tr : List Event) : List Request :=
  tr.filterMap fun
    | .effect (.http req) => some req
    | _ => none

/-- The cache writes made, in order: key, value, ttl in nanoseconds. -/
def cacheWrites (tr : List Event) : List (String × String × Int) :=
  tr.filterMap fun
    | .effect (.cacheSetWithTTL key value ttl) => some (key, value, ttl)
    | _ => none

/-! ## Scripted collaborators, for concrete runs -/

/-- What the collaborators answer in a concrete run: the cache's answer to `Get` by key,
what the token and ticket endpoints report, and the status and report of the
protected endpoints. -/
structure Script where
  cacheGet : String → String × Bool × Option GoError
  tokenReply : AccessTokenResponse
  ticketReply : JsTicketResponse
  endpointStatus : Int
  endpointReply : ErrResponse

/-- The collaborators that follow a script: a cache that answers `Get` as scripted and
accepts every write, token and ticket endpoints that answer 200 with the scripted report,
protected endpoints that answer with the scripted status and report. The body of a
response is the path it answers; decoding yields the scripted report. -/
def scriptEnv (sc : Script) : Env Unit where
  config := { AppID := "wx-app", AppSecret := "secret", Proxy := "", Env := "release" }
  cacheGet := fun key x => (sc.cacheGet key, x)
  cacheSetWithTTL := fun _ _ _ x => (none, x)
  httpExecute := fun req x =>
    if req.method = "GET" then
      (.ok { StatusCode := 200, Status := "200 OK", Bytes := req.path }, x)
    else
      (.ok { StatusCode := sc.endpointStatus, Status := "", Bytes := req.path }, x)
  unmarshalErrResponse := fun _ => .ok sc.endpointReply
  unmarshalAccessToken := fun _ => .ok sc.tokenReply
  unmarshalJsTicket := fun _ => .ok sc.ticketReply

/-- Scenarios B and C of the specification: the cache holds `TOK_OLD` and `TICKET_OLD`,
the issuer answers a token request with `TOK_NEW` and a ticket request with `TICKET_NEW`,
both valid for 7200 seconds. -/
def cachedScript : Script where
  cacheGet := fun key =>
    if key = "AccessToken" then ("TOK_OLD", true, none)
    else if key = "JsTicket" then ("TICKET_OLD", true, none)
    else ("", false, none)
  tokenReply := { ErrCode := 0, ErrMsg := "", AccessToken := "TOK_NEW", ExpiresIn := 7200 }
  ticketReply := { ErrCode := 0, ErrMsg := "ok", Ticket := "TICKET_NEW", ExpiresIn := 7200 }
  endpointStatus := 200
  endpointReply := { ErrCode := 0, ErrMsg := "ok" }

/-- A task that is refused with code 42001 when it presents `TOK_OLD` and succeeds with
any other token, returning the token it was given. -/
def staleOnceTask : Task Unit Unit String :=
  fun accessToken t x =>
    if accessToken = "TOK_OLD" then (((none : Option String), checkResponseError 42001 "expired"), t, x, [])
    else ((some accessToken, none), t, x, [])

/-- A task that is refused with code 42001 whatever token it presents. -/
def alwaysStaleTask : Task Unit Unit String :=
  fun _ t x => (((none : Option String), checkResponseError 42001 "expired"), t, x, [])

/-- A task that is refused with code 40125, which is not a stale-credential code. -/
def genericErrorTask : Task Unit Unit String :=
  fun _ t x => (((none : Option String), checkResponseError 40125 "invalid appsecret"), t, x, [])

/-- A cache whose `Get` fails. -/
def brokenCacheScript : Script :=
  { cachedScript with cacheGet := fun _ => ("", false, some (.other "cache unavailable")) }

/-- Scenario A of the specification: the cache is empty; the issuer answers a token request
with `TOK1` and a ticket request with `TICKET1`, both valid for `expiresIn` seconds. -/
def emptyCacheScript (expiresIn : Int) : Script where
  cacheGet := fun _ => ("", false, none)
  tokenReply := { ErrCode := 0, ErrMsg := "", AccessToken := "TOK1", ExpiresIn := expiresIn }
  ticketReply := { ErrCode := 0, ErrMsg := "ok", Ticket := "TICKET1", ExpiresIn := expiresIn }
  endpointStatus := 200
  endpointReply := { ErrCode := 0, ErrMsg := "ok" }

/-- The cache holds `TOK_OLD` and no ticket, the issuer answers a token request with
`TOK_NEW`, and the ticket endpoint reports the code `code`. -/
def ticketRefusedScript (code : Int) : Script :=
  { cachedScript with
    cacheGet := fun key => if key = "AccessToken" then ("TOK_OLD", true, none) else ("", false, none)
    ticketReply := { ErrCode := code, ErrMsg := "refused", Ticket := "", ExpiresIn := 0 } }

/-- The cache holds `TOK_OLD`, the issuer answers a token request with `TOK_NEW`, and every
protected endpoint answers with the HTTP status `status` and reports the code 42001. -/
def endpointExpiredScript (status : Int) : Script :=
  { cachedScript with
    endpointStatus := status
    endpointReply := { ErrCode := 42001, ErrMsg := "access_token expired" } }

/-- A QR code request for the scene `a=1`. -/
def sampleQrCode : QrCodeRequest :=
  { Scene := "a=1", Page := "", CheckPath := false, EnvVersion := "", Width := 0,
    AutoColor := false, LineColor := "", IsHyaline := false }

/-! ## Template messages (miniapp.go) -/

/-- Source: `PushTemplateConfig` (models.go). -/
structure PushTemplateConfig where
  TemplateId : String
  TemplateNo : Int
  TemplateKeys : List String
  Page : String
  deriving DecidableEq, Repr

/-- The map assignment `data[k] = v`: the entry of `k` is replaced, or added. -/
def mapSet (data : List (String × String)) (k v : String) : List (String × String) :=
  if data.any (fun p => p.1 = k) then data.map (fun p => if p.1 = k then (k, v) else p)
  else data ++ [(k, v)]

/-- Source: the loop of `SendMessageWithTemplate` that fills `data`: the key at index `i`
gets the value at index `i`, as long as there is one. -/
def templateData (keys values : List String) : List (String × String) :=
  (keys.zip values).foldl (fun data kv => mapSet data kv.1 kv.2) []

/-- Source: the message `SendMessageWithTemplate` builds (miniapp.go). -/
def templateMessage (config : Config) (temp : PushTemplateConfig) (values : List String)
    (toUser : String) : SubscribeMessageRequest :=
  { TemplateID := temp.TemplateId,
    Page := temp.Page,
    ToUser := toUser,
    Data := templateData temp.TemplateKeys values,
    MiniProgramState := config.Env,
    Lang := "zh_CN" }

/-- Source: `SendMessageWithTemplate` (miniapp.go). -/
def SendMessageWithTemplate {σ : Type} (env : Env σ) (temp : PushTemplateConfig)
    (values : List String) (toUser : String) (x : σ) : Option GoError × σ × List Event :=
  match SendMessage env (templateMessage env.config temp values toUser)
      [WithRetryable true] x with
  | (err, _, x1, tr) => (err, x1, tr)

/-- The collaborators of `scriptEnv`, for a client configured with the environment
`miniAppEnv`. -/
def scriptEnvIn (miniAppEnv : String) (sc : Script) : Env Unit :=
  { scriptEnv sc with
    config := { AppID := "wx-app", AppSecret := "secret", Proxy := "", Env := miniAppEnv } }

/-- A template with two keys. -/
def sampleTemplate : PushTemplateConfig :=
  { TemplateId := "tpl-1", TemplateNo := 1, TemplateKeys := ["amount1", "thing7"],
    Page := "pages/index/index" }

/-- The message a caller of `SendMessage` passes when it leaves `MiniProgramState` empty. -/
def sampleMessage : SubscribeMessageRequest :=
  { TemplateID := "tpl-1", Page := "pages/index/index", ToUser := "openid-1",
    Data := [("amount1", "123.45"), ("thing7", "income")],
    MiniProgramState := "", Lang := "zh_CN" }

/-! ## Strings and runes (utils.go) -/

/-- A Go string: a sequence of bytes, each a number below 256. -/
abbrev GoString := List Nat

/-- The constant `utf8.RuneError`, U+FFFD. -/
def RuneError : Nat := 0xFFFD

/-- A Unicode scalar value: a code point up to U+10FFFF that is not a surrogate. -/
def validRune (r : Nat) : Bool :=
  decide (r < 0xD800) || (decide (0xE000 ≤ r) && decide (r ≤ 0x10FFFF))

/-- The conversion `string(runeValue)`: the UTF-8 encoding of the rune, and that of
U+FFFD for a surrogate or a value above U+10FFFF. -/
def encodeRune (r : Nat) : GoString :=
  if r < 0x80 then [r]
  else if r < 0x800 then [0xC0 + r / 64, 0x80 + r % 64]
  else if 0xD800 ≤ r ∧ r ≤ 0xDFFF then [0xEF, 0xBF, 0xBD]
  else if r < 0x10000 then [0xE0 + r / 4096, 0x80 + r / 64 % 64, 0x80 + r % 64]
  else if r ≤ 0x10FFFF then
    [0xF0 + r / 262144, 0x80 + r / 4096 % 64, 0x80 + r / 64 % 64, 0x80 + r % 64]
  else [0xEF, 0xBF, 0xBD]

/-- The UTF-8 encoding of a sequence of runes. -/
def utf8Encode : List Nat → GoString
  | [] => []
  | r :: rs => encodeRune r ++ utf8Encode rs

/-- A continuation byte, 0x80..0xBF. -/
def isContinuation (b : Nat) : Bool :=
  decide (0x80 ≤ b) && decide (b ≤ 0xBF)

/-- The library function `utf8.DecodeRuneInString`: the first rune of the string and its
width in bytes; `(RuneError, 1)` for an encoding that is invalid, too short, too long or
out of range, and `(RuneError, 0)` for the empty string. -/
def decodeRune : GoString → Nat × Nat
  | [] => (RuneError, 0)
  | b0 :: rest =>
    if b0 < 0x80 then (b0, 1)
    else if 0xC2 ≤ b0 ∧ b0 ≤ 0xDF then
      match rest with
      | b1 :: _ =>
        if isContinuation b1 then ((b0 - 0xC0) * 64 + (b1 - 0x80), 2) else (RuneError, 1)
      | _ => (RuneError, 1)
    else if 0xE0 ≤ b0 ∧ b0 ≤ 0xEF then
      match rest with
      | b1 :: b2 :: _ =>
        if (if b0 = 0xE0 then 0xA0 else 0x80) ≤ b1 ∧ b1 ≤ (if b0 = 0xED then 0x9F else 0xBF)
            ∧ isContinuation b2 then
          ((b0 - 0xE0) * 4096 + (b1 - 0x80) * 64 + (b2 - 0x80), 3)
        else (RuneError, 1)
      | _ => (RuneError, 1)
    else if 0xF0 ≤ b0 ∧ b0 ≤ 0xF4 then
      match rest with
      | b1 :: b2 :: b3 :: _ =>
        if (if b0 = 0xF0 then 0x90 else 0x80) ≤ b1 ∧ b1 ≤ (if b0 = 0xF4 then 0x8F else 0xBF)
            ∧ isContinuation b2 ∧ isContinuation b3 then
          ((b0 - 0xF0) * 262144 + (b1 - 0x80) * 4096 + (b2 - 0x80) * 64 + (b3 - 0x80), 4)
        else (RuneError, 1)
      | _ => (RuneError, 1)
    else (RuneError, 1)

/-- The runes a loop `for _, runeValue := range s` yields: at each position the rune
`decodeRune` finds there, the position then moving on by its width. `skip` is the number
of bytes still to pass over to reach the next position. -/
def rangeRunesFrom : Nat → GoString → List Nat
  | _, [] => []
  | skip + 1, _ :: rest => rangeRunesFrom skip rest
  | 0, b :: rest =>
    (decodeRune (b :: rest)).1 :: rangeRunesFrom ((decodeRune (b :: rest)).2 - 1) rest

/-- The runes a loop `for _, runeValue := range s` yields. -/
def rangeRunes (s : GoString) : List Nat :=
  rangeRunesFrom 0 s

/-- The library function `utf8.RuneCountInString`: the number of runes of the string, an
invalid byte counting as one rune. -/
def RuneCountInString (s : GoString) : Int :=
  (rangeRunes s).length

/-- Source: the loop of `TruncateString` (utils.go), over the runes still to come, with the
variables `truncated` and `count`. -/
def truncateLoop (maxChars : Int) : List Nat → GoString → Int → GoString
  | [], truncated, _ => truncated
  | runeValue :: rest, truncated, count =>
    if count ≥ maxChars then truncated
    else truncateLoop maxChars rest (truncated ++ encodeRune runeValue) (count + 1)

/-- Source: `TruncateString` (utils.go). -/
def TruncateString (s : GoString) (maxChars : Int) : GoString :=
  if maxChars ≤ 0 then []
  else if RuneCountInString s ≤ maxChars then s
  else truncateLoop maxChars (rangeRunes s) [] 0

/-- The runes of the text that `TestWechat_SendMessageWithTemplate` truncates: ten Chinese
characters, four times over. -/
def longTextRunes : List Nat :=
  [0x4E8C, 0x5341, 0x4E2A, 0x6C49, 0x5B57, 0x6D4B, 0x8BD5, 0x516B, 0x4E5D, 0x5341,
   0x4E8C, 0x5341, 0x4E2A, 0x6C49, 0x5B57, 0x6D4B, 0x8BD5, 0x516B, 0x4E5D, 0x5341,
   0x4E8C, 0x5341, 0x4E2A, 0x6C49, 0x5B57, 0x6D4B, 0x8BD5, 0x516B, 0x4E5D, 0x5341,
   0x4E8C, 0x5341, 0x4E2A, 0x6C49, 0x5B57, 0x6D4B, 0x8BD5, 0x516B, 0x4E5D, 0x5341]

end Wechat

namespace Wechat

/-- C1: `checkResponseError code msg` is nil exactly when `code = 0`; it is an error that
`isNeedRetryError` accepts exactly when `code` is 40001, 42001 or 40014, and then it is the
sentinel of that code; for every other non-zero code it is `ErrResponse{code, msg}`, which
`isNeedRetryError` rejects. -/
theorem checkResponseError_classification (code : Int) (msg : String) :
    (checkResponseError code msg = none ↔ code = 0) ∧
    ((∃ e, checkResponseError code msg = some e ∧ isNeedRetryError e = true) ↔
      (code = 40001 ∨ code = 42001 ∨ code = 40014)) ∧
    (code = 40001 → checkResponseError code msg = some GoError.ErrorInvalidCredential) ∧
    (code = 42001 → checkResponseError code msg = some GoError.ErrorAccessTokenExpired) ∧
    (code = 40014 → checkResponseError code msg = some GoError.ErrorInvalidAccessToken) ∧
    (code ≠ 0 → code ≠ 40001 → code ≠ 42001 → code ≠ 40014 →
      checkResponseError code msg = some (GoError.ErrResponse code msg) ∧
      isNeedRetryError (GoError.ErrResponse code msg) = false) := by
  unfold checkResponseError ErrCodeInvalidCredential ErrCodeAccessTokenExpired
    ErrCodeInvalidAccessToken
  by_cases h1 : code = 40001
  · subst h1; simp [isNeedRetryError, errorsIs]
  by_cases h2 : code = 42001
  · subst h2; simp [isNeedRetryError, errorsIs]
  by_cases h3 : code = 40014
  · subst h3; simp [isNeedRetryError, errorsIs]
  by_cases h0 : code = 0
  · subst h0; simp
  simp [h1, h2, h3, h0, isNeedRetryError, errorsIs]

end Wechat

namespace Wechat

/-! ## The cases of `withAccessToken` -/

theorem newRequestOptions_nil :
    newRequestOptions [] = { retryable := true, reloadAccessToken := false } := rfl

theorem newRequestOptions_clone (o : requestOptions) : newRequestOptions [WithClone o] = o := by
  cases o; rfl

/-- `GetAccessToken` fails: the error is returned and `task` is not called. -/
theorem withAccessToken_token_error {σ τ T : Type} (env : Env σ) (task : Task σ τ T)
    (options : List RequestOption) (t : τ) (x : σ) {v : String} {err : GoError} {x1 : σ}
    {tr1 : List Effect}
    (hTok : GetAccessToken env (newRequestOptions options).reloadAccessToken x
      = ((v, some err), x1, tr1)) :
    withAccessToken env task options t x =
      ((none, some err), t, x1,
        .getAccessToken (newRequestOptions options).reloadAccessToken :: tr1.map .effect) := by
  rw [withAccessToken, hTok]

/-- `task` succeeds: its result is returned. -/
theorem withAccessToken_task_ok {σ τ T : Type} (env : Env σ) (task : Task σ τ T)
    (options : List RequestOption) (t : τ) (x : σ) {token : String} {x1 x2 : σ}
    {tr1 tr2 : List Effect} {resp : Option T} {t2 : τ}
    (hTok : GetAccessToken env (newRequestOptions options).reloadAccessToken x
      = ((token, none), x1, tr1))
    (hTask : task token t x1 = ((resp, none), t2, x2, tr2)) :
    withAccessToken env task options t x =
      ((resp, none), t2, x2,
        .getAccessToken (newRequestOptions options).reloadAccessToken :: tr1.map .effect
          ++ .task token :: tr2.map .effect) := by
  rw [withAccessToken, hTok]
  simp only [hTask]

/-- `task` fails and there is no retry: its error is returned. -/
theorem withAccessToken_task_error {σ τ T : Type} (env : Env σ) (task : Task σ τ T)
    (options : List RequestOption) (t : τ) (x : σ) {token : String} {x1 x2 : σ}
    {tr1 tr2 : List Effect} {resp : Option T} {err : GoError} {t2 : τ}
    (hTok : GetAccessToken env (newRequestOptions options).reloadAccessToken x
      = ((token, none), x1, tr1))
    (hTask : task token t x1 = ((resp, some err), t2, x2, tr2))
    (hNo : (newRequestOptions options).retryable = false ∨ isNeedRetryError err = false) :
    withAccessToken env task options t x =
      ((none, some err), t2, x2,
        .getAccessToken (newRequestOptions options).reloadAccessToken :: tr1.map .effect
          ++ .task token :: tr2.map .effect) := by
  rw [withAccessToken, hTok]
  simp only [hTask]
  rw [dif_neg]
  rcases hNo with h | h <;> simp [h]

/-- `task` fails with a stale credential and the call is retryable: the call is made again
with the options `retryable = false, reloadAccessToken = true`. -/
theorem withAccessToken_retry {σ τ T : Type} (env : Env σ) (task : Task σ τ T)
    (options : List RequestOption) (t : τ) (x : σ) {token : String} {x1 x2 : σ}
    {tr1 tr2 : List Effect} {resp : Option T} {err : GoError} {t2 : τ}
    (hTok : GetAccessToken env (newRequestOptions options).reloadAccessToken x
      = ((token, none), x1, tr1))
    (hTask : task token t x1 = ((resp, some err), t2, x2, tr2))
    (hRetryable : (newRequestOptions options).retryable = true)
    (hStale : isNeedRetryError err = true) :
    withAccessToken env task options t x =
      ((withAccessToken env task
          [WithClone { retryable := false, reloadAccessToken := true }] t2 x2).1,
       (withAccessToken env task
          [WithClone { retryable := false, reloadAccessToken := true }] t2 x2).2.1,
       (withAccessToken env task
          [WithClone { retryable := false, reloadAccessToken := true }] t2 x2).2.2.1,
        .getAccessToken (newRequestOptions options).reloadAccessToken :: tr1.map .effect
          ++ .task token :: tr2.map .effect
          ++ (withAccessToken env task
          [WithClone { retryable := false, reloadAccessToken := true }] t2 x2).2.2.2) := by
  conv_lhs => rw [withAccessToken, hTok]
  simp only [hTask]
  rw [dif_pos ⟨hRetryable, hStale⟩]

end Wechat

namespace Wechat

/-! ## Reading the trace of `withAccessToken` -/

@[simp] theorem taskCalls_nil : taskCalls [] = [] := rfl

@[simp] theorem taskCalls_cons_task (token : String) (tr : List Event) :
    taskCalls (Event.task token :: tr) = token :: taskCalls tr := rfl

@[simp] theorem taskCalls_cons_getAccessToken (reload : Bool) (tr : List Event) :
    taskCalls (Event.getAccessToken reload :: tr) = taskCalls tr := rfl

@[simp] theorem taskCalls_cons_effect (e : Effect) (tr : List Event) :
    taskCalls (Event.effect e :: tr) = taskCalls tr := rfl

@[simp] theorem taskCalls_append (a b : List Event) :
    taskCalls (a ++ b) = taskCalls a ++ taskCalls b := by
  simp [taskCalls, List.filterMap_append]

@[simp] theorem taskCalls_effects (tr : List Effect) : taskCalls (tr.map Event.effect) = [] := by
  induction tr with
  | nil => rfl
  | cons a tr ih => simp [ih]

@[simp] theorem getAccessTokenCalls_nil : getAccessTokenCalls [] = [] := rfl

@[simp] theorem getAccessTokenCalls_cons_task (token : String) (tr : List Event) :
    getAccessTokenCalls (Event.task token :: tr) = getAccessTokenCalls tr := rfl

@[simp] theorem getAccessTokenCalls_cons_getAccessToken (reload : Bool) (tr : List Event) :
    getAccessTokenCalls (Event.getAccessToken reload :: tr) = reload :: getAccessTokenCalls tr :=
  rfl

@[simp] theorem getAccessTokenCalls_cons_effect (e : Effect) (tr : List Event) :
    getAccessTokenCalls (Event.effect e :: tr) = getAccessTokenCalls tr := rfl

@[simp] theorem getAccessTokenCalls_append (a b : List Event) :
    getAccessTokenCalls (a ++ b) = getAccessTokenCalls a ++ getAccessTokenCalls b := by
  simp [getAccessTokenCalls, List.filterMap_append]

@[simp] theorem getAccessTokenCalls_effects (tr : List Effect) :
    getAccessTokenCalls (tr.map Event.effect) = [] := by
  induction tr with
  | nil => rfl
  | cons a tr ih => simp [ih]

/-- A call that is not retryable makes one attempt: at most one call of `GetAccessToken`,
with the `reload` of its options, and at most one call of `task`. -/
theorem withAccessToken_not_retryable {σ τ T : Type} (env : Env σ) (task : Task σ τ T)
    (options : List RequestOption) (t : τ) (x : σ)
    (hNo : (newRequestOptions options).retryable = false) :
    (taskCalls (withAccessToken env task options t x).2.2.2).length ≤ 1 ∧
    getAccessTokenCalls (withAccessToken env task options t x).2.2.2
      = [(newRequestOptions options).reloadAccessToken] := by
  rcases hTok : GetAccessToken env (newRequestOptions options).reloadAccessToken x with
    ⟨⟨v, oerr⟩, x1, tr1⟩
  cases oerr with
  | some err =>
    rw [withAccessToken_token_error env task options t x hTok]
    simp
  | none =>
    rcases hTask : task v t x1 with ⟨⟨resp, oerr2⟩, t2, x2, tr2⟩
    cases oerr2 with
    | none =>
      rw [withAccessToken_task_ok env task options t x hTok hTask]
      simp
    | some err =>
      rw [withAccessToken_task_error env task options t x hTok hTask (Or.inl hNo)]
      simp

/-! ## The bound-call executor: single retry -/

/-- C2: with default options, when `task` fails with a stale-credential error on its first
call and succeeds with `r` on its second, `withAccessToken` returns `(r, nil)`; `task` is
called exactly twice; the first attempt takes its token from `GetAccessToken(false)`, the
second from one `GetAccessToken(true)`, and the second call of `task` receives the token
that forced reload returned. -/
theorem withAccessToken_single_retry {σ τ T : Type} (env : Env σ) (task : Task σ τ T)
    (t : τ) (x : σ) {tok1 tok2 : String} {x1 x2 x3 x4 : σ} {t2 t4 : τ}
    {tr1 tr2 tr3 tr4 : List Effect} {r1 r : Option T} {e : GoError}
    (hTok1 : GetAccessToken env false x = ((tok1, none), x1, tr1))
    (hFail : task tok1 t x1 = ((r1, some e), t2, x2, tr2))
    (hStale : isNeedRetryError e = true)
    (hTok2 : GetAccessToken env true x2 = ((tok2, none), x3, tr3))
    (hOk : task tok2 t2 x3 = ((r, none), t4, x4, tr4)) :
    withAccessToken env task [] t x =
      ((r, none), t4, x4,
        Event.getAccessToken false :: tr1.map Event.effect
          ++ Event.task tok1 :: tr2.map Event.effect
          ++ (Event.getAccessToken true :: tr3.map Event.effect
          ++ Event.task tok2 :: tr4.map Event.effect)) ∧
    taskCalls (withAccessToken env task [] t x).2.2.2 = [tok1, tok2] ∧
    getAccessTokenCalls (withAccessToken env task [] t x).2.2.2 = [false, true] := by
  have hSecond : withAccessToken env task
      [WithClone { retryable := false, reloadAccessToken := true }] t2 x2 =
      ((r, none), t4, x4,
        Event.getAccessToken true :: tr3.map Event.effect
          ++ Event.task tok2 :: tr4.map Event.effect) := by
    have h := withAccessToken_task_ok env task
      [WithClone { retryable := false, reloadAccessToken := true }] t2 x2
      (by rw [newRequestOptions_clone]; exact hTok2) hOk
    rw [newRequestOptions_clone] at h
    exact h
  have hFirst := withAccessToken_retry env task [] t x
    (by rw [newRequestOptions_nil]; exact hTok1) hFail (by rw [newRequestOptions_nil]) hStale
  rw [hSecond, newRequestOptions_nil] at hFirst
  rw [hFirst]
  simp

/-- C2, at a concrete run (scenario C of the specification): the cache holds `TOK_OLD`, the
task is refused with 42001 on `TOK_OLD`, the issuer hands out `TOK_NEW`. -/
theorem withAccessToken_single_retry_witness :
    withAccessToken (scriptEnv cachedScript) staleOnceTask [] () () =
      ((some "TOK_NEW", none), (), (),
        [Event.getAccessToken false, Event.effect (Effect.cacheGet "AccessToken"),
         Event.task "TOK_OLD",
         Event.getAccessToken true,
         Event.effect (Effect.http (accessTokenRequest (scriptEnv cachedScript).config)),
         Event.effect (Effect.cacheSetWithTTL "AccessToken" "TOK_NEW" 7198000000000),
         Event.task "TOK_NEW"]) ∧
    taskCalls (withAccessToken (scriptEnv cachedScript) staleOnceTask [] () ()).2.2.2
      = ["TOK_OLD", "TOK_NEW"] ∧
    getAccessTokenCalls (withAccessToken (scriptEnv cachedScript) staleOnceTask [] () ()).2.2.2
      = [false, true] :=
  withAccessToken_single_retry (scriptEnv cachedScript) staleOnceTask () ()
    (rfl : GetAccessToken (scriptEnv cachedScript) false ()
      = (("TOK_OLD", none), (), [Effect.cacheGet "AccessToken"]))
    (rfl : staleOnceTask "TOK_OLD" () ()
      = ((none, some GoError.ErrorAccessTokenExpired), (), (), []))
    (rfl : isNeedRetryError GoError.ErrorAccessTokenExpired = true)
    (rfl : GetAccessToken (scriptEnv cachedScript) true ()
      = (("TOK_NEW", none), (),
          [Effect.http (accessTokenRequest (scriptEnv cachedScript).config),
           Effect.cacheSetWithTTL "AccessToken" "TOK_NEW" 7198000000000]))
    (rfl : staleOnceTask "TOK_NEW" () () = ((some "TOK_NEW", none), (), (), []))

/-- C3: `withAccessToken` is a total function, and for every task, every behaviour of the
collaborators and every list of options its trace holds at most two calls of `task` (and at
most two of `GetAccessToken`). When the call is retryable and both calls of `task` fail with
a stale-credential error, the second error is returned after exactly two calls of `task`:
the second attempt runs with `retryable = false, reloadAccessToken = true`. -/
theorem withAccessToken_at_most_two_attempts {σ τ T : Type} (env : Env σ) (task : Task σ τ T)
    (options : List RequestOption) (t : τ) (x : σ) :
    (taskCalls (withAccessToken env task options t x).2.2.2).length ≤ 2 ∧
    (getAccessTokenCalls (withAccessToken env task options t x).2.2.2).length ≤ 2 ∧
    newRequestOptions [WithClone { retryable := false, reloadAccessToken := true }]
      = { retryable := false, reloadAccessToken := true } ∧
    (∀ (tok1 tok2 : String) (x1 x2 x3 x4 : σ) (t2 t4 : τ) (tr1 tr2 tr3 tr4 : List Effect)
        (r1 r2 : Option T) (e1 e2 : GoError),
      (newRequestOptions options).retryable = true →
      GetAccessToken env (newRequestOptions options).reloadAccessToken x
        = ((tok1, none), x1, tr1) →
      task tok1 t x1 = ((r1, some e1), t2, x2, tr2) →
      isNeedRetryError e1 = true →
      GetAccessToken env true x2 = ((tok2, none), x3, tr3) →
      task tok2 t2 x3 = ((r2, some e2), t4, x4, tr4) →
      isNeedRetryError e2 = true →
      withAccessToken env task options t x =
        ((none, some e2), t4, x4,
          Event.getAccessToken (newRequestOptions options).reloadAccessToken
            :: tr1.map Event.effect
            ++ Event.task tok1 :: tr2.map Event.effect
            ++ (Event.getAccessToken true :: tr3.map Event.effect
            ++ Event.task tok2 :: tr4.map Event.effect)) ∧
      taskCalls (withAccessToken env task options t x).2.2.2 = [tok1, tok2] ∧
      getAccessTokenCalls (withAccessToken env task options t x).2.2.2
        = [(newRequestOptions options).reloadAccessToken, true]) := by
  have hClone := newRequestOptions_clone { retryable := false, reloadAccessToken := true }
  have hInner := fun (t2 : τ) (x2 : σ) => withAccessToken_not_retryable env task
    [WithClone { retryable := false, reloadAccessToken := true }] t2 x2
    (by rw [hClone])
  refine ⟨?_, ?_, hClone, ?_⟩
  · rcases hTok : GetAccessToken env (newRequestOptions options).reloadAccessToken x with
      ⟨⟨v, oerr⟩, x1, tr1⟩
    cases oerr with
    | some err => rw [withAccessToken_token_error env task options t x hTok]; simp
    | none =>
      rcases hTask : task v t x1 with ⟨⟨resp, oerr2⟩, t2, x2, tr2⟩
      cases oerr2 with
      | none => rw [withAccessToken_task_ok env task options t x hTok hTask]; simp
      | some err =>
        by_cases hR : (newRequestOptions options).retryable = true ∧ isNeedRetryError err = true
        · rw [withAccessToken_retry env task options t x hTok hTask hR.1 hR.2]
          have h := (hInner t2 x2).1
          simp only [taskCalls_append, taskCalls_cons_getAccessToken, taskCalls_effects,
            taskCalls_cons_task, List.nil_append, List.length_append, List.length_cons,
            List.length_nil, List.cons_append]
          omega
        · have hNo : (newRequestOptions options).retryable = false
              ∨ isNeedRetryError err = false := by
            by_cases h1 : (newRequestOptions options).retryable = true
            · right
              cases h2 : isNeedRetryError err
              · rfl
              · exact absurd ⟨h1, h2⟩ hR
            · left; simpa using h1
          rw [withAccessToken_task_error env task options t x hTok hTask hNo]; simp
  · rcases hTok : GetAccessToken env (newRequestOptions options).reloadAccessToken x with
      ⟨⟨v, oerr⟩, x1, tr1⟩
    cases oerr with
    | some err => rw [withAccessToken_token_error env task options t x hTok]; simp
    | none =>
      rcases hTask : task v t x1 with ⟨⟨resp, oerr2⟩, t2, x2, tr2⟩
      cases oerr2 with
      | none => rw [withAccessToken_task_ok env task options t x hTok hTask]; simp
      | some err =>
        by_cases hR : (newRequestOptions options).retryable = true ∧ isNeedRetryError err = true
        · rw [withAccessToken_retry env task options t x hTok hTask hR.1 hR.2]
          have h := (hInner t2 x2).2
          simp only [getAccessTokenCalls_append, getAccessTokenCalls_cons_getAccessToken,
            getAccessTokenCalls_effects, getAccessTokenCalls_cons_task, List.nil_append,
            List.length_append, List.length_cons, List.length_nil, List.cons_append, h, hClone]
          omega
        · have hNo : (newRequestOptions options).retryable = false
              ∨ isNeedRetryError err = false := by
            by_cases h1 : (newRequestOptions options).retryable = true
            · right
              cases h2 : isNeedRetryError err
              · rfl
              · exact absurd ⟨h1, h2⟩ hR
            · left; simpa using h1
          rw [withAccessToken_task_error env task options t x hTok hTask hNo]; simp
  · intro tok1 tok2 x1 x2 x3 x4 t2 t4 tr1 tr2 tr3 tr4 r1 r2 e1 e2 hRetryable hTok1 hFail1
      hStale1 hTok2 hFail2 _
    have hSecond := withAccessToken_task_error env task
      [WithClone { retryable := false, reloadAccessToken := true }] t2 x2
      (by rw [hClone]; exact hTok2) hFail2 (Or.inl (by rw [hClone]))
    rw [hClone] at hSecond
    have hFirst := withAccessToken_retry env task options t x hTok1 hFail1 hRetryable hStale1
    rw [hSecond] at hFirst
    rw [hFirst]
    simp

/-- C3, at a concrete run: the cache holds `TOK_OLD`, the issuer hands out `TOK_NEW`, and
the task is refused with 42001 whatever the token; the call ends after two calls of `task`
with the stale-credential error. -/
theorem withAccessToken_at_most_two_attempts_witness :
    withAccessToken (scriptEnv cachedScript) alwaysStaleTask [] () () =
      ((none, some GoError.ErrorAccessTokenExpired), (), (),
        [Event.getAccessToken false, Event.effect (Effect.cacheGet "AccessToken"),
         Event.task "TOK_OLD",
         Event.getAccessToken true,
         Event.effect (Effect.http (accessTokenRequest (scriptEnv cachedScript).config)),
         Event.effect (Effect.cacheSetWithTTL "AccessToken" "TOK_NEW" 7198000000000),
         Event.task "TOK_NEW"]) ∧
    taskCalls (withAccessToken (scriptEnv cachedScript) alwaysStaleTask [] () ()).2.2.2
      = ["TOK_OLD", "TOK_NEW"] ∧
    getAccessTokenCalls (withAccessToken (scriptEnv cachedScript) alwaysStaleTask [] () ()).2.2.2
      = [false, true] :=
  (withAccessToken_at_most_two_attempts (scriptEnv cachedScript) alwaysStaleTask [] () ()).2.2.2
    "TOK_OLD" "TOK_NEW" () () () () () ()
    [Effect.cacheGet "AccessToken"] []
    [Effect.http (accessTokenRequest (scriptEnv cachedScript).config),
     Effect.cacheSetWithTTL "AccessToken" "TOK_NEW" 7198000000000] []
    none none GoError.ErrorAccessTokenExpired GoError.ErrorAccessTokenExpired
    (by rfl) (by rfl) (by rfl) (by rfl) (by rfl) (by rfl) (by rfl)

/-- C4: when the first call of `task` fails with an error `e` that `isNeedRetryError`
rejects, `withAccessToken` returns `(nil, e)` after that one call of `task` and the one call
of `GetAccessToken` that preceded it, made with the `reload` of the options; with options
that do not ask for a reload, no `GetAccessToken(true)` occurs. -/
theorem withAccessToken_no_retry_on_other_error {σ τ T : Type} (env : Env σ)
    (task : Task σ τ T) (options : List RequestOption) (t : τ) (x : σ)
    {tok1 : String} {x1 x2 : σ} {t2 : τ} {tr1 tr2 : List Effect} {r1 : Option T} {e : GoError}
    (hTok : GetAccessToken env (newRequestOptions options).reloadAccessToken x
      = ((tok1, none), x1, tr1))
    (hFail : task tok1 t x1 = ((r1, some e), t2, x2, tr2))
    (hOther : isNeedRetryError e = false) :
    withAccessToken env task options t x =
      ((none, some e), t2, x2,
        Event.getAccessToken (newRequestOptions options).reloadAccessToken
          :: tr1.map Event.effect ++ Event.task tok1 :: tr2.map Event.effect) ∧
    taskCalls (withAccessToken env task options t x).2.2.2 = [tok1] ∧
    getAccessTokenCalls (withAccessToken env task options t x).2.2.2
      = [(newRequestOptions options).reloadAccessToken] ∧
    ((newRequestOptions options).reloadAccessToken = false →
      true ∉ getAccessTokenCalls (withAccessToken env task options t x).2.2.2) := by
  rw [withAccessToken_task_error env task options t x hTok hFail (Or.inr hOther)]
  simp

/-- C4, at a concrete run (default options): the cache holds `TOK_OLD` and the task is
refused with the code 40125. -/
theorem withAccessToken_no_retry_on_other_error_witness :
    isNeedRetryError (GoError.ErrResponse 40125 "invalid appsecret") = false ∧
    withAccessToken (scriptEnv cachedScript) genericErrorTask [] () () =
      ((none, some (GoError.ErrResponse 40125 "invalid appsecret")), (), (),
        [Event.getAccessToken false, Event.effect (Effect.cacheGet "AccessToken"),
         Event.task "TOK_OLD"]) ∧
    taskCalls (withAccessToken (scriptEnv cachedScript) genericErrorTask [] () ()).2.2.2
      = ["TOK_OLD"] ∧
    getAccessTokenCalls (withAccessToken (scriptEnv cachedScript) genericErrorTask [] () ()).2.2.2
      = [false] :=
  have h := withAccessToken_no_retry_on_other_error (scriptEnv cachedScript) genericErrorTask
    [] () ()
    (rfl : GetAccessToken (scriptEnv cachedScript) false ()
      = (("TOK_OLD", none), (), [Effect.cacheGet "AccessToken"]))
    (rfl : genericErrorTask "TOK_OLD" () ()
      = ((none, some (GoError.ErrResponse 40125 "invalid appsecret")), (), (), []))
    (rfl : isNeedRetryError (GoError.ErrResponse 40125 "invalid appsecret") = false)
  ⟨by rfl, h.1, h.2.1, h.2.2.1⟩

/-! ## The credential provider: cache hit, cache failure -/

/-- C5: with `reload = false`, when the cache's `Get` for the operation's key answers
`(v, true, nil)`, `GetAccessToken` (key `AccessToken`) and `GetJsTicket` (key `JsTicket`)
return `(v, nil)` and do nothing but that cache read: no HTTP request, no cache write. -/
theorem cache_hit_returns_cached_value {σ : Type} (env : Env σ) (x x1 : σ) (v : String) :
    (env.cacheGet "AccessToken" x = ((v, true, none), x1) →
      GetAccessToken env false x = ((v, none), x1, [Effect.cacheGet "AccessToken"])) ∧
    (env.cacheGet "JsTicket" x = ((v, true, none), x1) →
      GetJsTicket env false x = ((v, none), x1, [Event.effect (Effect.cacheGet "JsTicket")]) ∧
      httpRequests (GetJsTicket env false x).2.2 = [] ∧
      cacheWrites (GetJsTicket env false x).2.2 = []) := by
  constructor
  · intro h
    simp [GetAccessToken, h]
  · intro h
    simp [GetJsTicket, h, httpRequests, cacheWrites]

/-- C5, at a concrete run (scenario B of the specification): the cache holds `TOK_OLD` and
`TICKET_OLD`. -/
theorem cache_hit_returns_cached_value_witness :
    GetAccessToken (scriptEnv cachedScript) false ()
      = (("TOK_OLD", none), (), [Effect.cacheGet "AccessToken"]) ∧
    GetJsTicket (scriptEnv cachedScript) false ()
      = (("TICKET_OLD", none), (), [Event.effect (Effect.cacheGet "JsTicket")]) :=
  ⟨(cache_hit_returns_cached_value (scriptEnv cachedScript) () () "TOK_OLD").1 (by rfl),
   ((cache_hit_returns_cached_value (scriptEnv cachedScript) () () "TICKET_OLD").2 (by rfl)).1⟩

/-- C9: with `reload = false`, when the cache's `Get` answers with a non-nil error `e`,
`GetAccessToken` and `GetJsTicket` return `("", e)` and do nothing but that cache read: the
failure is not taken for a miss, no HTTP request is sent and nothing is written. -/
theorem cache_error_is_returned {σ : Type} (env : Env σ) (x x1 : σ) (v : String)
    (found : Bool) (e : GoError) :
    (env.cacheGet "AccessToken" x = ((v, found, some e), x1) →
      GetAccessToken env false x = (("", some e), x1, [Effect.cacheGet "AccessToken"])) ∧
    (env.cacheGet "JsTicket" x = ((v, found, some e), x1) →
      GetJsTicket env false x = (("", some e), x1, [Event.effect (Effect.cacheGet "JsTicket")]) ∧
      httpRequests (GetJsTicket env false x).2.2 = [] ∧
      cacheWrites (GetJsTicket env false x).2.2 = []) := by
  constructor
  · intro h
    simp [GetAccessToken, h]
  · intro h
    simp [GetJsTicket, h, httpRequests, cacheWrites]

/-- C9, at a concrete run: a cache whose `Get` fails. -/
theorem cache_error_is_returned_witness :
    GetAccessToken (scriptEnv brokenCacheScript) false ()
      = (("", some (GoError.other "cache unavailable")), (), [Effect.cacheGet "AccessToken"]) ∧
    GetJsTicket (scriptEnv brokenCacheScript) false ()
      = (("", some (GoError.other "cache unavailable")), (),
          [Event.effect (Effect.cacheGet "JsTicket")]) :=
  ⟨(cache_error_is_returned (scriptEnv brokenCacheScript) () () "" false
      (GoError.other "cache unavailable")).1 (by rfl),
   ((cache_error_is_returned (scriptEnv brokenCacheScript) () () "" false
      (GoError.other "cache unavailable")).2 (by rfl)).1⟩

/-! ## The safety margin of the cached credential -/

theorem wrapInt64_of_range (n : Int) (h1 : -9223372036854775808 ≤ n)
    (h2 : n ≤ 9223372036854775807) : wrapInt64 n = n := by
  unfold wrapInt64
  omega

theorem cacheTTL_of_range (T : Int) (h1 : -9223372034 ≤ T) (h2 : T ≤ 9223372038) :
    cacheTTL T = (T - 2) * 1000000000 := by
  unfold cacheTTL Second
  rw [wrapInt64_of_range (T - 2) (by omega) (by omega)]
  exact wrapInt64_of_range _ (by omega) (by omega)

theorem cacheWrites_append (a b : List Event) :
    cacheWrites (a ++ b) = cacheWrites a ++ cacheWrites b := by
  simp [cacheWrites, List.filterMap_append]

/-- The successful exit of the token fetch. -/
theorem fetchAccessToken_ok {σ : Type} (env : Env σ) (x x1 : σ) (resp : Response)
    (a : AccessTokenResponse)
    (hHttp : env.httpExecute (accessTokenRequest env.config) x = (Except.ok resp, x1))
    (hStatus : resp.IsSuccess = true)
    (hBody : env.unmarshalAccessToken resp.Bytes = Except.ok a)
    (hCode : a.ErrCode = 0) :
    fetchAccessToken env x =
      ((a.AccessToken, none),
        (env.cacheSetWithTTL "AccessToken" a.AccessToken (cacheTTL a.ExpiresIn) x1).2,
        [Effect.http (accessTokenRequest env.config),
         Effect.cacheSetWithTTL "AccessToken" a.AccessToken (cacheTTL a.ExpiresIn)]) := by
  have hNotErr : resp.IsError = false := by
    simp only [Response.IsSuccess, Response.IsError, Bool.and_eq_true, decide_eq_true_eq,
      decide_eq_false_iff_not] at *
    omega
  simp [fetchAccessToken, hHttp, loadSuccessResponse, hNotErr, hStatus, hBody, hCode,
    checkResponseError, ErrCodeInvalidCredential, ErrCodeAccessTokenExpired,
    ErrCodeInvalidAccessToken]

/-- C6 as stated fails: an issuer that reports a TTL of 0 seconds (or 1) makes
`GetAccessToken` and `GetJsTicket` write a negative ttl, -2 seconds (or -1), to the cache;
and a reported TTL of 9223372039 seconds overflows the 64-bit nanosecond count. -/
theorem cache_ttl_negative_counterexample :
    GetAccessToken (scriptEnv (emptyCacheScript 0)) false () =
      (("TOK1", none), (),
        [Effect.cacheGet "AccessToken",
         Effect.http (accessTokenRequest (scriptEnv (emptyCacheScript 0)).config),
         Effect.cacheSetWithTTL "AccessToken" "TOK1" (-2000000000)]) ∧
    cacheWrites (GetJsTicket (scriptEnv (emptyCacheScript 0)) true ()).2.2 =
      [("AccessToken", "TOK1", -2000000000), ("JsTicket", "TICKET1", -2000000000)] ∧
    cacheTTL 0 < 0 ∧
    cacheTTL 1 = -1000000000 ∧
    cacheTTL 9223372039 = -9223372036709551616 := by
  refine ⟨by rfl, ?_, by decide, by decide, by decide⟩
  have h := withAccessToken_task_ok (scriptEnv (emptyCacheScript 0))
    (jsTicketTask (scriptEnv (emptyCacheScript 0))) [] () ()
    (rfl : GetAccessToken (scriptEnv (emptyCacheScript 0)) false ()
      = (("TOK1", none), (),
          [Effect.cacheGet "AccessToken",
           Effect.http (accessTokenRequest (scriptEnv (emptyCacheScript 0)).config),
           Effect.cacheSetWithTTL "AccessToken" "TOK1" (-2000000000)]))
    (rfl : jsTicketTask (scriptEnv (emptyCacheScript 0)) "TOK1" () ()
      = ((some (emptyCacheScript 0).ticketReply, none), (), (),
          [Effect.http (jsTicketRequest "TOK1")]))
  simp only [GetJsTicket, fetchJsTicket, h]
  rfl

/-- C6, amended: for an issuer-reported TTL of `T` seconds with
`-9223372034 ≤ T ≤ 9223372038` (the range in which `T - 2` seconds fits a 64-bit count of
nanoseconds), a successful token or ticket issuance writes the credential to the cache with
a ttl of exactly `T - 2` seconds; that ttl is non-negative exactly when `T ≥ 2`. -/
theorem cache_ttl_is_expiry_minus_two {σ : Type} (env : Env σ) (T : Int)
    (hLow : -9223372034 ≤ T) (hHigh : T ≤ 9223372038) :
    cacheTTL T = (T - 2) * 1000000000 ∧
    (0 ≤ cacheTTL T ↔ 2 ≤ T) ∧
    (∀ (x x1 : σ) (resp : Response) (a : AccessTokenResponse),
      env.httpExecute (accessTokenRequest env.config) x = (Except.ok resp, x1) →
      resp.IsSuccess = true →
      env.unmarshalAccessToken resp.Bytes = Except.ok a →
      a.ErrCode = 0 → a.ExpiresIn = T →
      GetAccessToken env true x =
        ((a.AccessToken, none),
          (env.cacheSetWithTTL "AccessToken" a.AccessToken ((T - 2) * 1000000000) x1).2,
          [Effect.http (accessTokenRequest env.config),
           Effect.cacheSetWithTTL "AccessToken" a.AccessToken ((T - 2) * 1000000000)]) ∧
      ∀ (x0 : σ) (v : String), env.cacheGet "AccessToken" x0 = ((v, false, none), x) →
        GetAccessToken env false x0 =
          ((a.AccessToken, none),
            (env.cacheSetWithTTL "AccessToken" a.AccessToken ((T - 2) * 1000000000) x1).2,
            [Effect.cacheGet "AccessToken", Effect.http (accessTokenRequest env.config),
             Effect.cacheSetWithTTL "AccessToken" a.AccessToken ((T - 2) * 1000000000)])) ∧
    (∀ (x x1 : σ) (tr : List Event) (tk : JsTicketResponse),
      withAccessToken env (jsTicketTask env) [] () x = ((some tk, none), (), x1, tr) →
      tk.ExpiresIn = T →
      GetJsTicket env true x =
        ((tk.Ticket, none),
          (env.cacheSetWithTTL "JsTicket" tk.Ticket ((T - 2) * 1000000000) x1).2,
          tr ++ [Event.effect
            (Effect.cacheSetWithTTL "JsTicket" tk.Ticket ((T - 2) * 1000000000))]) ∧
      ∀ (x0 : σ) (v : String), env.cacheGet "JsTicket" x0 = ((v, false, none), x) →
        GetJsTicket env false x0 =
          ((tk.Ticket, none),
            (env.cacheSetWithTTL "JsTicket" tk.Ticket ((T - 2) * 1000000000) x1).2,
            Event.effect (Effect.cacheGet "JsTicket") :: tr ++ [Event.effect
              (Effect.cacheSetWithTTL "JsTicket" tk.Ticket ((T - 2) * 1000000000))])) := by
  have hT := cacheTTL_of_range T hLow hHigh
  refine ⟨hT, ?_, ?_, ?_⟩
  · rw [hT]; omega
  · intro x x1 resp a hHttp hStatus hBody hCode hExp
    have h := fetchAccessToken_ok env x x1 resp a hHttp hStatus hBody hCode
    rw [hExp, hT] at h
    refine ⟨by simp [GetAccessToken, h], ?_⟩
    intro x0 v hGet
    simp [GetAccessToken, hGet, h]
  · intro x x1 tr tk hRun hExp
    have h : fetchJsTicket env x =
        ((tk.Ticket, none),
          (env.cacheSetWithTTL "JsTicket" tk.Ticket ((T - 2) * 1000000000) x1).2,
          tr ++ [Event.effect
            (Effect.cacheSetWithTTL "JsTicket" tk.Ticket ((T - 2) * 1000000000))]) := by
      simp [fetchJsTicket, hRun, hExp, hT]
    refine ⟨by simp [GetJsTicket, h], ?_⟩
    intro x0 v hGet
    simp [GetJsTicket, hGet, h]

/-- C6 amended, at a concrete run (scenario A of the specification): the cache is empty and
the issuer reports `TOK1` with a TTL of 7200 seconds; the cache write carries 7198 seconds. -/
theorem cache_ttl_is_expiry_minus_two_witness :
    GetAccessToken (scriptEnv (emptyCacheScript 7200)) false () =
      (("TOK1", none), (),
        [Effect.cacheGet "AccessToken",
         Effect.http (accessTokenRequest (scriptEnv (emptyCacheScript 7200)).config),
         Effect.cacheSetWithTTL "AccessToken" "TOK1" (7198 * 1000000000)]) :=
  ((((cache_ttl_is_expiry_minus_two (scriptEnv (emptyCacheScript 7200)) 7200
      (by decide) (by decide)).2.2.1 () ()
      { StatusCode := 200, Status := "200 OK", Bytes := "/cgi-bin/token" }
      (emptyCacheScript 7200).tokenReply (by rfl) (by rfl) (by rfl) (by rfl) (by rfl)).2)
      () "" (by rfl))

/-! ## Errors reported while the ticket is fetched -/

@[simp] theorem httpRequests_nil : httpRequests [] = [] := rfl

@[simp] theorem httpRequests_cons_http (req : Request) (tr : List Event) :
    httpRequests (Event.effect (Effect.http req) :: tr) = req :: httpRequests tr := rfl

@[simp] theorem httpRequests_cons_cacheGet (key : String) (tr : List Event) :
    httpRequests (Event.effect (Effect.cacheGet key) :: tr) = httpRequests tr := rfl

@[simp] theorem httpRequests_cons_cacheSet (key value : String) (ttl : Int) (tr : List Event) :
    httpRequests (Event.effect (Effect.cacheSetWithTTL key value ttl) :: tr)
      = httpRequests tr := rfl

@[simp] theorem httpRequests_cons_task (token : String) (tr : List Event) :
    httpRequests (Event.task token :: tr) = httpRequests tr := rfl

@[simp] theorem httpRequests_cons_getAccessToken (reload : Bool) (tr : List Event) :
    httpRequests (Event.getAccessToken reload :: tr) = httpRequests tr := rfl

/-- A non-zero code is always turned into an error. -/
theorem checkResponseError_of_ne_zero (c : Int) (m : String) (h : c ≠ 0) :
    ∃ e, checkResponseError c m = some e := by
  unfold checkResponseError
  split_ifs <;> exact ⟨_, rfl⟩

/-- A code that is not one of the three stale-credential codes is kept as `ErrResponse`. -/
theorem checkResponseError_other (c : Int) (m : String) (h0 : c ≠ 0) (h1 : c ≠ 40001)
    (h2 : c ≠ 42001) (h3 : c ≠ 40014) :
    checkResponseError c m = some (GoError.ErrResponse c m) ∧
    isNeedRetryError (GoError.ErrResponse c m) = false := by
  simp [checkResponseError, ErrCodeInvalidCredential, ErrCodeAccessTokenExpired,
    ErrCodeInvalidAccessToken, h0, h1, h2, h3, isNeedRetryError, errorsIs]

/-- Each of the three stale-credential codes is turned into an error that asks for a retry. -/
theorem checkResponseError_stale (c : Int) (m : String)
    (h : c = 40001 ∨ c = 42001 ∨ c = 40014) :
    ∃ e, checkResponseError c m = some e ∧ isNeedRetryError e = true := by
  rcases h with h | h | h <;> subst h <;>
    simp [checkResponseError, ErrCodeInvalidCredential, ErrCodeAccessTokenExpired,
      ErrCodeInvalidAccessToken, isNeedRetryError, errorsIs]

/-- A 2xx response that decodes to `a` is checked by `check`. -/
theorem loadSuccessResponse_of_success {σ T : Type} (env : Env σ)
    (unmarshal : String → Except GoError T) (resp : Response) (check : T → Option GoError)
    (a : T) (hStatus : resp.IsSuccess = true) (hBody : unmarshal resp.Bytes = Except.ok a) :
    loadSuccessResponse env unmarshal resp check =
      match check a with
      | some err => (none, some err)
      | none => (some a, none) := by
  have hNotErr : resp.IsError = false := by
    simp only [Response.IsSuccess, Response.IsError, Bool.and_eq_true, decide_eq_true_eq,
      decide_eq_false_iff_not] at *
    omega
  simp [loadSuccessResponse, hNotErr, hStatus, hBody]

/-- The ticket task, when the ticket endpoint answers 2xx and reports a non-zero code. -/
theorem jsTicketTask_reported_error {σ : Type} (env : Env σ) (tok : String) (x1 x2 : σ)
    (resp : Response) (a : JsTicketResponse) (e : GoError)
    (hHttp : env.httpExecute (jsTicketRequest tok) x1 = (Except.ok resp, x2))
    (hStatus : resp.IsSuccess = true)
    (hBody : env.unmarshalJsTicket resp.Bytes = Except.ok a)
    (hErr : checkResponseError a.ErrCode a.ErrMsg = some e) :
    jsTicketTask env tok () x1 = ((none, some e), (), x2, [Effect.http (jsTicketRequest tok)]) := by
  simp [jsTicketTask, hHttp,
    loadSuccessResponse_of_success env env.unmarshalJsTicket resp _ a hStatus hBody, hErr]

/-- The fetch of the ticket adds to the trace of its `withAccessToken` at most a cache write. -/
theorem fetchJsTicket_calls {σ : Type} (env : Env σ) (x : σ) :
    taskCalls (fetchJsTicket env x).2.2
      = taskCalls (withAccessToken env (jsTicketTask env) [] () x).2.2.2 ∧
    getAccessTokenCalls (fetchJsTicket env x).2.2
      = getAccessTokenCalls (withAccessToken env (jsTicketTask env) [] () x).2.2.2 := by
  rcases h : withAccessToken env (jsTicketTask env) [] () x with ⟨⟨r, oe⟩, u, x1, tr⟩
  cases oe with
  | some err => simp [fetchJsTicket, h]
  | none =>
    cases r with
    | none => simp [fetchJsTicket, h]
    | some tk => simp [fetchJsTicket, h]

/-- A call that is not retryable and obtains a token calls `task` once, with that token. -/
theorem withAccessToken_not_retryable_task {σ τ T : Type} (env : Env σ) (task : Task σ τ T)
    (options : List RequestOption) (t : τ) (x : σ) {token : String} {x1 : σ}
    {tr1 : List Effect}
    (hNo : (newRequestOptions options).retryable = false)
    (hTok : GetAccessToken env (newRequestOptions options).reloadAccessToken x
      = ((token, none), x1, tr1)) :
    taskCalls (withAccessToken env task options t x).2.2.2 = [token] := by
  rcases hTask : task token t x1 with ⟨⟨resp, oerr2⟩, t2, x2, tr2⟩
  cases oerr2 with
  | none => rw [withAccessToken_task_ok env task options t x hTok hTask]; simp
  | some err =>
    rw [withAccessToken_task_error env task options t x hTok hTask (Or.inl hNo)]; simp

/-- C8 as stated fails: the cache holds `TOK_OLD`, the ticket endpoint reports 42001 to
every request. The forced fetch of the ticket sends the ticket request twice and forces a
reload of the token in between. -/
theorem jsTicket_fetch_retries_counterexample :
    GetJsTicket (scriptEnv (ticketRefusedScript 42001)) true () =
      (("", checkResponseError 42001 "refused"), (),
        [Event.getAccessToken false, Event.effect (Effect.cacheGet "AccessToken"),
         Event.task "TOK_OLD", Event.effect (Effect.http (jsTicketRequest "TOK_OLD")),
         Event.getAccessToken true,
         Event.effect (Effect.http
           (accessTokenRequest (scriptEnv (ticketRefusedScript 42001)).config)),
         Event.effect (Effect.cacheSetWithTTL "AccessToken" "TOK_NEW" 7198000000000),
         Event.task "TOK_NEW", Event.effect (Effect.http (jsTicketRequest "TOK_NEW"))]) ∧
    httpRequests (GetJsTicket (scriptEnv (ticketRefusedScript 42001)) true ()).2.2 =
      [jsTicketRequest "TOK_OLD",
       accessTokenRequest (scriptEnv (ticketRefusedScript 42001)).config,
       jsTicketRequest "TOK_NEW"] ∧
    getAccessTokenCalls (GetJsTicket (scriptEnv (ticketRefusedScript 42001)) true ()).2.2
      = [false, true] := by
  have hSecond := withAccessToken_task_error (scriptEnv (ticketRefusedScript 42001))
    (jsTicketTask (scriptEnv (ticketRefusedScript 42001)))
    [WithClone { retryable := false, reloadAccessToken := true }] () ()
    (rfl : GetAccessToken (scriptEnv (ticketRefusedScript 42001)) true ()
      = (("TOK_NEW", none), (),
          [Effect.http (accessTokenRequest (scriptEnv (ticketRefusedScript 42001)).config),
           Effect.cacheSetWithTTL "AccessToken" "TOK_NEW" 7198000000000]))
    (rfl : jsTicketTask (scriptEnv (ticketRefusedScript 42001)) "TOK_NEW" () ()
      = ((none, some GoError.ErrorAccessTokenExpired), (), (),
          [Effect.http (jsTicketRequest "TOK_NEW")]))
    (Or.inl rfl)
  have hFirst := withAccessToken_retry (scriptEnv (ticketRefusedScript 42001))
    (jsTicketTask (scriptEnv (ticketRefusedScript 42001))) [] () ()
    (rfl : GetAccessToken (scriptEnv (ticketRefusedScript 42001)) false ()
      = (("TOK_OLD", none), (), [Effect.cacheGet "AccessToken"]))
    (rfl : jsTicketTask (scriptEnv (ticketRefusedScript 42001)) "TOK_OLD" () ()
      = ((none, some GoError.ErrorAccessTokenExpired), (), (),
          [Effect.http (jsTicketRequest "TOK_OLD")]))
    rfl rfl
  rw [hSecond] at hFirst
  have hRun : GetJsTicket (scriptEnv (ticketRefusedScript 42001)) true () =
      (("", checkResponseError 42001 "refused"), (),
        [Event.getAccessToken false, Event.effect (Effect.cacheGet "AccessToken"),
         Event.task "TOK_OLD", Event.effect (Effect.http (jsTicketRequest "TOK_OLD")),
         Event.getAccessToken true,
         Event.effect (Effect.http
           (accessTokenRequest (scriptEnv (ticketRefusedScript 42001)).config)),
         Event.effect (Effect.cacheSetWithTTL "AccessToken" "TOK_NEW" 7198000000000),
         Event.task "TOK_NEW", Event.effect (Effect.http (jsTicketRequest "TOK_NEW"))]) := by
    simp only [GetJsTicket, fetchJsTicket, hFirst]
    rfl
  rw [hRun]
  exact ⟨rfl, rfl, rfl⟩

/-- C8, amended: in `GetJsTicket`, on a forced reload or a cache miss, when the first ticket
request is answered 2xx with a non-zero code `c` and message `m`: if `c` is none of 40001,
42001, 40014, the ticket request is sent once, `GetAccessToken` is called once, not
reloading, and the error returned is `checkResponseError(c, m) = ErrResponse{c, m}`; if `c`
is one of the three, the fetch, which runs through `withAccessToken` with default options,
goes on to call `GetAccessToken(true)`, and when that yields a token the ticket request is
sent a second time with it. -/
theorem jsTicket_fetch_reported_error {σ : Type} (env : Env σ) (x x1 x2 : σ) (tok : String)
    (tr1 : List Effect) (resp : Response) (a : JsTicketResponse)
    (hTok : GetAccessToken env false x = ((tok, none), x1, tr1))
    (hHttp : env.httpExecute (jsTicketRequest tok) x1 = (Except.ok resp, x2))
    (hStatus : resp.IsSuccess = true)
    (hBody : env.unmarshalJsTicket resp.Bytes = Except.ok a)
    (hCode : a.ErrCode ≠ 0) :
    GetJsTicket env true x = fetchJsTicket env x ∧
    (∀ (x0 : σ) (v : String), env.cacheGet "JsTicket" x0 = ((v, false, none), x) →
      GetJsTicket env false x0 =
        ((fetchJsTicket env x).1, (fetchJsTicket env x).2.1,
          Event.effect (Effect.cacheGet "JsTicket") :: (fetchJsTicket env x).2.2)) ∧
    (a.ErrCode ≠ 40001 → a.ErrCode ≠ 42001 → a.ErrCode ≠ 40014 →
      fetchJsTicket env x =
        (("", checkResponseError a.ErrCode a.ErrMsg), x2,
          Event.getAccessToken false :: tr1.map Event.effect
            ++ [Event.task tok, Event.effect (Effect.http (jsTicketRequest tok))]) ∧
      checkResponseError a.ErrCode a.ErrMsg = some (GoError.ErrResponse a.ErrCode a.ErrMsg) ∧
      taskCalls (fetchJsTicket env x).2.2 = [tok] ∧
      getAccessTokenCalls (fetchJsTicket env x).2.2 = [false]) ∧
    (a.ErrCode = 40001 ∨ a.ErrCode = 42001 ∨ a.ErrCode = 40014 →
      getAccessTokenCalls (fetchJsTicket env x).2.2 = [false, true] ∧
      ∀ (tok2 : String) (x3 : σ) (tr3 : List Effect),
        GetAccessToken env true x2 = ((tok2, none), x3, tr3) →
        taskCalls (fetchJsTicket env x).2.2 = [tok, tok2]) := by
  have hClone := newRequestOptions_clone { retryable := false, reloadAccessToken := true }
  refine ⟨by simp [GetJsTicket], ?_, ?_, ?_⟩
  · intro x0 v hGet
    simp [GetJsTicket, hGet]
  · intro h1 h2 h3
    obtain ⟨hErr, hOther⟩ := checkResponseError_other a.ErrCode a.ErrMsg hCode h1 h2 h3
    have hTask := jsTicketTask_reported_error env tok x1 x2 resp a _ hHttp hStatus hBody hErr
    have hRun := withAccessToken_task_error env (jsTicketTask env) [] () x
      (by rw [newRequestOptions_nil]; exact hTok) hTask (Or.inr hOther)
    rw [newRequestOptions_nil] at hRun
    have hFetch : fetchJsTicket env x =
        (("", checkResponseError a.ErrCode a.ErrMsg), x2,
          Event.getAccessToken false :: tr1.map Event.effect
            ++ [Event.task tok, Event.effect (Effect.http (jsTicketRequest tok))]) := by
      simp [fetchJsTicket, hRun, hErr]
    refine ⟨hFetch, hErr, ?_, ?_⟩ <;> rw [hFetch] <;> simp
  · intro hStaleCode
    obtain ⟨e, hErr, hStale⟩ := checkResponseError_stale a.ErrCode a.ErrMsg hStaleCode
    have hTask := jsTicketTask_reported_error env tok x1 x2 resp a e hHttp hStatus hBody hErr
    have hRun := withAccessToken_retry env (jsTicketTask env) [] () x
      (by rw [newRequestOptions_nil]; exact hTok) hTask (by rw [newRequestOptions_nil]) hStale
    rw [newRequestOptions_nil] at hRun
    have hInner := (withAccessToken_not_retryable env (jsTicketTask env)
      [WithClone { retryable := false, reloadAccessToken := true }] () x2
      (by rw [hClone])).2
    rw [hClone] at hInner
    constructor
    · rw [(fetchJsTicket_calls env x).2, hRun]
      simp [hInner]
    · intro tok2 x3 tr3 hTok2
      have hInnerTask := withAccessToken_not_retryable_task env (jsTicketTask env)
        [WithClone { retryable := false, reloadAccessToken := true }] () x2
        (by rw [hClone]) (by rw [hClone]; exact hTok2)
      rw [(fetchJsTicket_calls env x).1, hRun]
      simp [hInnerTask]

/-- C8 amended, at a concrete run: the cache holds `TOK_OLD` and the ticket endpoint reports
the code 45009; the ticket request is sent once and no reload of the token is forced. -/
theorem jsTicket_fetch_reported_error_witness :
    GetJsTicket (scriptEnv (ticketRefusedScript 45009)) true () =
      (("", some (GoError.ErrResponse 45009 "refused")), (),
        [Event.getAccessToken false, Event.effect (Effect.cacheGet "AccessToken"),
         Event.task "TOK_OLD", Event.effect (Effect.http (jsTicketRequest "TOK_OLD"))]) :=
  have h := jsTicket_fetch_reported_error (scriptEnv (ticketRefusedScript 45009)) () () ()
    "TOK_OLD" [Effect.cacheGet "AccessToken"]
    { StatusCode := 200, Status := "200 OK", Bytes := "/cgi-bin/ticket/getticket" }
    (ticketRefusedScript 45009).ticketReply
    (by rfl) (by rfl) (by rfl) (by rfl) (by decide)
  h.1.trans ((h.2.2.1 (by decide) (by decide) (by decide)).1)

/-! ## Errors reported by a protected endpoint -/

/-- C7, the code at the failing input: the cache holds `TOK_OLD` and the QR code endpoint
reports the code 42001. Answered with status 400, the task of `GetQrCode` returns
`&ErrResponse{42001, ...}`, which is not `checkResponseError(42001, ...)` and which
`isNeedRetryError` rejects, so `GetQrCode` ends after one attempt without reloading the
token; answered with status 200, `GetQrCode` returns the body as the image, with no error.
`SendMessage`, given the same report with status 200, classifies it and retries once with
a reloaded token. -/
theorem getQrCode_reported_error_not_classified :
    GetQrCode (scriptEnv (endpointExpiredScript 400)) sampleQrCode [] () =
      ((none, some (GoError.ErrResponsePtr 42001 "access_token expired")), (),
        [Event.getAccessToken false, Event.effect (Effect.cacheGet "AccessToken"),
         Event.task "TOK_OLD",
         Event.effect (Effect.http (qrCodeRequest "TOK_OLD" sampleQrCode))]) ∧
    isNeedRetryError (GoError.ErrResponsePtr 42001 "access_token expired") = false ∧
    checkResponseError 42001 "access_token expired" = some GoError.ErrorAccessTokenExpired ∧
    GetQrCode (scriptEnv (endpointExpiredScript 200)) sampleQrCode [] () =
      ((some "/wxa/getwxacodeunlimit", none), (),
        [Event.getAccessToken false, Event.effect (Effect.cacheGet "AccessToken"),
         Event.task "TOK_OLD",
         Event.effect (Effect.http (qrCodeRequest "TOK_OLD" sampleQrCode))]) ∧
    SendMessage (scriptEnv (endpointExpiredScript 200)) sampleMessage [] () =
      (some GoError.ErrorAccessTokenExpired,
        { sampleMessage with MiniProgramState := "formal" }, (),
        [Event.getAccessToken false, Event.effect (Effect.cacheGet "AccessToken"),
         Event.task "TOK_OLD",
         Event.effect (Effect.http (subscribeSendRequest "TOK_OLD"
           { sampleMessage with MiniProgramState := "formal" })),
         Event.getAccessToken true,
         Event.effect (Effect.http
           (accessTokenRequest (scriptEnv (endpointExpiredScript 200)).config)),
         Event.effect (Effect.cacheSetWithTTL "AccessToken" "TOK_NEW" 7198000000000),
         Event.task "TOK_NEW",
         Event.effect (Effect.http (subscribeSendRequest "TOK_NEW"
           { sampleMessage with MiniProgramState := "formal" }))]) := by
  refine ⟨?_, by rfl, by rfl, ?_, ?_⟩
  · have h := withAccessToken_task_error (scriptEnv (endpointExpiredScript 400))
      (qrCodeTask (scriptEnv (endpointExpiredScript 400)) sampleQrCode) [] () ()
      (rfl : GetAccessToken (scriptEnv (endpointExpiredScript 400)) false ()
        = (("TOK_OLD", none), (), [Effect.cacheGet "AccessToken"]))
      (rfl : qrCodeTask (scriptEnv (endpointExpiredScript 400)) sampleQrCode "TOK_OLD" () ()
        = ((none, some (GoError.ErrResponsePtr 42001 "access_token expired")), (), (),
            [Effect.http (qrCodeRequest "TOK_OLD" sampleQrCode)]))
      (Or.inr rfl)
    simp only [GetQrCode, h]
    rfl
  · have h := withAccessToken_task_ok (scriptEnv (endpointExpiredScript 200))
      (qrCodeTask (scriptEnv (endpointExpiredScript 200)) sampleQrCode) [] () ()
      (rfl : GetAccessToken (scriptEnv (endpointExpiredScript 200)) false ()
        = (("TOK_OLD", none), (), [Effect.cacheGet "AccessToken"]))
      (rfl : qrCodeTask (scriptEnv (endpointExpiredScript 200)) sampleQrCode "TOK_OLD" () ()
        = ((some { raw := "/wxa/getwxacodeunlimit" }, none), (), (),
            [Effect.http (qrCodeRequest "TOK_OLD" sampleQrCode)]))
    simp only [GetQrCode, h]
    rfl
  · have hSecond := withAccessToken_task_error (scriptEnv (endpointExpiredScript 200))
      (sendMessageTask (scriptEnv (endpointExpiredScript 200)))
      [WithClone { retryable := false, reloadAccessToken := true }]
      (fillMiniProgramState (scriptEnv (endpointExpiredScript 200)).config sampleMessage) ()
      (rfl : GetAccessToken (scriptEnv (endpointExpiredScript 200)) true ()
        = (("TOK_NEW", none), (),
            [Effect.http (accessTokenRequest (scriptEnv (endpointExpiredScript 200)).config),
             Effect.cacheSetWithTTL "AccessToken" "TOK_NEW" 7198000000000]))
      (rfl : sendMessageTask (scriptEnv (endpointExpiredScript 200)) "TOK_NEW"
          (fillMiniProgramState (scriptEnv (endpointExpiredScript 200)).config sampleMessage) ()
        = ((none, some GoError.ErrorAccessTokenExpired),
            { sampleMessage with MiniProgramState := "formal" }, (),
            [Effect.http (subscribeSendRequest "TOK_NEW"
              { sampleMessage with MiniProgramState := "formal" })]))
      (Or.inl rfl)
    have hFirst := withAccessToken_retry (scriptEnv (endpointExpiredScript 200))
      (sendMessageTask (scriptEnv (endpointExpiredScript 200))) [] sampleMessage ()
      (rfl : GetAccessToken (scriptEnv (endpointExpiredScript 200)) false ()
        = (("TOK_OLD", none), (), [Effect.cacheGet "AccessToken"]))
      (rfl : sendMessageTask (scriptEnv (endpointExpiredScript 200)) "TOK_OLD" sampleMessage ()
        = ((none, some GoError.ErrorAccessTokenExpired),
            fillMiniProgramState (scriptEnv (endpointExpiredScript 200)).config sampleMessage,
            (),
            [Effect.http (subscribeSendRequest "TOK_OLD"
              { sampleMessage with MiniProgramState := "formal" })]))
      rfl rfl
    rw [hSecond] at hFirst
    simp only [SendMessage, hFirst]
    rfl

/-! ## The environment of a template message -/

/-- A scripted run of `SendMessage`: the cache holds `TOK_OLD` and the endpoint accepts the
message; one request is sent, carrying the message as the task left it. -/
theorem sendMessage_scripted_run (miniAppEnv : String) (msg : SubscribeMessageRequest)
    (options : List RequestOption)
    (hReload : (newRequestOptions options).reloadAccessToken = false) :
    SendMessage (scriptEnvIn miniAppEnv cachedScript) msg options () =
      (none, fillMiniProgramState (scriptEnvIn miniAppEnv cachedScript).config msg, (),
        [Event.getAccessToken false, Event.effect (Effect.cacheGet "AccessToken"),
         Event.task "TOK_OLD",
         Event.effect (Effect.http (subscribeSendRequest "TOK_OLD"
           (fillMiniProgramState (scriptEnvIn miniAppEnv cachedScript).config msg)))]) := by
  have h := withAccessToken_task_ok (scriptEnvIn miniAppEnv cachedScript)
    (sendMessageTask (scriptEnvIn miniAppEnv cachedScript)) options msg ()
    (by rw [hReload]; rfl :
      GetAccessToken (scriptEnvIn miniAppEnv cachedScript)
          (newRequestOptions options).reloadAccessToken ()
        = (("TOK_OLD", none), (), [Effect.cacheGet "AccessToken"]))
    (rfl : sendMessageTask (scriptEnvIn miniAppEnv cachedScript) "TOK_OLD" msg ()
      = ((none, none), fillMiniProgramState (scriptEnvIn miniAppEnv cachedScript).config msg,
          (), [Effect.http (subscribeSendRequest "TOK_OLD"
            (fillMiniProgramState (scriptEnvIn miniAppEnv cachedScript).config msg))]))
  simp only [SendMessage, h, hReload]
  rfl

/-- C11, the code at the failing input: whatever the configuration, the message
`SendMessageWithTemplate` posts carries the name of the configured environment itself as
its `MiniProgramState`. For a client configured with `develop` (as in
`TestWechat_SendMessageWithTemplate`) the request carries `develop`, and with `release` it
carries `release`, where `SendMessage` itself fills in `developer` and `formal` for a
message whose `MiniProgramState` is empty; only for `trial` do the two agree. -/
theorem sendMessageWithTemplate_posts_env_name :
    (∀ (config : Config) (temp : PushTemplateConfig) (values : List String) (toUser : String),
      (fillMiniProgramState config (templateMessage config temp values toUser)).MiniProgramState
        = config.Env) ∧
    httpRequests (SendMessageWithTemplate (scriptEnvIn "develop" cachedScript) sampleTemplate
        ["123.45", "income"] "openid-1" ()).2.2
      = [subscribeSendRequest "TOK_OLD" { sampleMessage with MiniProgramState := "develop" }] ∧
    httpRequests (SendMessage (scriptEnvIn "develop" cachedScript) sampleMessage [] ()).2.2.2
      = [subscribeSendRequest "TOK_OLD" { sampleMessage with MiniProgramState := "developer" }] ∧
    httpRequests (SendMessageWithTemplate (scriptEnvIn "release" cachedScript) sampleTemplate
        ["123.45", "income"] "openid-1" ()).2.2
      = [subscribeSendRequest "TOK_OLD" { sampleMessage with MiniProgramState := "release" }] ∧
    httpRequests (SendMessage (scriptEnvIn "release" cachedScript) sampleMessage [] ()).2.2.2
      = [subscribeSendRequest "TOK_OLD" { sampleMessage with MiniProgramState := "formal" }] ∧
    httpRequests (SendMessageWithTemplate (scriptEnvIn "trial" cachedScript) sampleTemplate
        ["123.45", "income"] "openid-1" ()).2.2
      = [subscribeSendRequest "TOK_OLD" { sampleMessage with MiniProgramState := "trial" }] ∧
    httpRequests (SendMessage (scriptEnvIn "trial" cachedScript) sampleMessage [] ()).2.2.2
      = [subscribeSendRequest "TOK_OLD" { sampleMessage with MiniProgramState := "trial" }] := by
  refine ⟨?_, ?_, ?_, ?_, ?_, ?_, ?_⟩
  · intro config temp values toUser
    unfold fillMiniProgramState templateMessage
    by_cases h : config.Env = ""
    · simp [h]
    · simp [h]
  · simp only [SendMessageWithTemplate, sendMessage_scripted_run "develop" _ [WithRetryable true] rfl]
    rfl
  · rw [sendMessage_scripted_run "develop" sampleMessage [] rfl]
    rfl
  · simp only [SendMessageWithTemplate, sendMessage_scripted_run "release" _ [WithRetryable true] rfl]
    rfl
  · rw [sendMessage_scripted_run "release" sampleMessage [] rfl]
    rfl
  · simp only [SendMessageWithTemplate, sendMessage_scripted_run "trial" _ [WithRetryable true] rfl]
    rfl
  · rw [sendMessage_scripted_run "trial" sampleMessage [] rfl]
    rfl

/-! ## Truncation of a string to a number of characters -/

theorem decodeRune_two (b0 b1 : Nat) (rest : GoString) (h0 : 0xC2 ≤ b0 ∧ b0 ≤ 0xDF)
    (hc : isContinuation b1 = true) :
    decodeRune (b0 :: b1 :: rest) = ((b0 - 0xC0) * 64 + (b1 - 0x80), 2) := by
  simp only [decodeRune]
  rw [if_neg (by omega), if_pos h0, if_pos hc]

theorem decodeRune_three (b0 b1 b2 : Nat) (rest : GoString) (h0 : 0xE0 ≤ b0 ∧ b0 ≤ 0xEF)
    (hc : (if b0 = 0xE0 then 0xA0 else 0x80) ≤ b1 ∧ b1 ≤ (if b0 = 0xED then 0x9F else 0xBF)
      ∧ isContinuation b2 = true) :
    decodeRune (b0 :: b1 :: b2 :: rest)
      = ((b0 - 0xE0) * 4096 + (b1 - 0x80) * 64 + (b2 - 0x80), 3) := by
  simp only [decodeRune]
  rw [if_neg (by omega), if_neg (by omega), if_pos h0, if_pos hc]

theorem decodeRune_four (b0 b1 b2 b3 : Nat) (rest : GoString) (h0 : 0xF0 ≤ b0 ∧ b0 ≤ 0xF4)
    (hc : (if b0 = 0xF0 then 0x90 else 0x80) ≤ b1 ∧ b1 ≤ (if b0 = 0xF4 then 0x8F else 0xBF)
      ∧ isContinuation b2 = true ∧ isContinuation b3 = true) :
    decodeRune (b0 :: b1 :: b2 :: b3 :: rest)
      = ((b0 - 0xF0) * 262144 + (b1 - 0x80) * 4096 + (b2 - 0x80) * 64 + (b3 - 0x80), 4) := by
  simp only [decodeRune]
  rw [if_neg (by omega), if_neg (by omega), if_neg (by omega), if_pos h0, if_pos hc]

theorem isContinuation_low_bits (n : Nat) : isContinuation (0x80 + n % 64) = true := by
  simp only [isContinuation, Bool.and_eq_true, decide_eq_true_eq]
  omega

/-- Decoding finds the rune that was encoded, and its width. -/
theorem decodeRune_encodeRune (r : Nat) (rest : GoString) (h : validRune r = true) :
    decodeRune (encodeRune r ++ rest) = (r, (encodeRune r).length) := by
  simp only [validRune, Bool.or_eq_true, Bool.and_eq_true, decide_eq_true_eq] at h
  unfold encodeRune
  split_ifs with h1 h2 h3 h4 h5
  · simp [decodeRune, h1]
  · simp only [List.cons_append, List.nil_append]
    rw [decodeRune_two _ _ _ (by omega) (isContinuation_low_bits _)]
    simp only [List.length_cons, List.length_nil, Prod.mk.injEq]
    exact ⟨by omega, trivial⟩
  · omega
  · have h9 : (if 0xE0 + r / 4096 = 0xE0 then 0xA0 else 0x80) ≤ 0x80 + r / 64 % 64 := by
      split_ifs <;> omega
    have h10 : 0x80 + r / 64 % 64 ≤ (if 0xE0 + r / 4096 = 0xED then 0x9F else 0xBF) := by
      split_ifs <;> omega
    simp only [List.cons_append, List.nil_append]
    rw [decodeRune_three _ _ _ _ (by omega) ⟨h9, h10, isContinuation_low_bits _⟩]
    simp only [List.length_cons, List.length_nil, Prod.mk.injEq]
    exact ⟨by omega, trivial⟩
  · have h10 : (if 0xF0 + r / 262144 = 0xF0 then 0x90 else 0x80) ≤ 0x80 + r / 4096 % 64 := by
      split_ifs <;> omega
    have h11 : 0x80 + r / 4096 % 64 ≤ (if 0xF0 + r / 262144 = 0xF4 then 0x8F else 0xBF) := by
      split_ifs <;> omega
    simp only [List.cons_append, List.nil_append]
    rw [decodeRune_four _ _ _ _ _ (by omega)
      ⟨h10, h11, isContinuation_low_bits _, isContinuation_low_bits _⟩]
    simp only [List.length_cons, List.length_nil, Prod.mk.injEq]
    exact ⟨by omega, trivial⟩
  · omega

/-- Every rune the decoder yields is a Unicode scalar value. -/
theorem decodeRune_valid (s : GoString) : validRune (decodeRune s).1 = true := by
  unfold decodeRune
  repeat' split
  all_goals
    simp only [validRune, RuneError, isContinuation, Bool.or_eq_true, Bool.and_eq_true,
      decide_eq_true_eq] at *
  all_goals omega

/-- The decoder consumes at least one byte of a non-empty string. -/
theorem decodeRune_width_pos (b : Nat) (rest : GoString) : 1 ≤ (decodeRune (b :: rest)).2 := by
  simp only [decodeRune]
  repeat' split
  all_goals simp

theorem rangeRunesFrom_eq_drop (k : Nat) (s : GoString) :
    rangeRunesFrom k s = rangeRunes (s.drop k) := by
  induction s generalizing k with
  | nil => simp [rangeRunes, rangeRunesFrom]
  | cons b rest ih =>
    cases k with
    | zero => simp [rangeRunes]
    | succ k =>
      simp only [rangeRunesFrom, List.drop_succ_cons]
      exact ih k

/-- One step of the range loop: the rune at the front, then the rest of the string. -/
theorem rangeRunes_cons (b : Nat) (rest : GoString) :
    rangeRunes (b :: rest) =
      (decodeRune (b :: rest)).1
        :: rangeRunes ((b :: rest).drop (decodeRune (b :: rest)).2) := by
  have hw := decodeRune_width_pos b rest
  obtain ⟨w, hw1⟩ : ∃ w, (decodeRune (b :: rest)).2 = w + 1 :=
    ⟨(decodeRune (b :: rest)).2 - 1, by omega⟩
  have h : rangeRunes (b :: rest) =
      (decodeRune (b :: rest)).1 :: rangeRunesFrom ((decodeRune (b :: rest)).2 - 1) rest := rfl
  rw [h, rangeRunesFrom_eq_drop, hw1]
  simp

theorem encodeRune_length_pos (r : Nat) : 1 ≤ (encodeRune r).length := by
  unfold encodeRune
  split_ifs <;> simp

/-- The range loop reads back an encoded rune. -/
theorem rangeRunes_encodeRune_append (r : Nat) (rest : GoString) (h : validRune r = true) :
    rangeRunes (encodeRune r ++ rest) = r :: rangeRunes rest := by
  have hd := decodeRune_encodeRune r rest h
  cases hE : encodeRune r with
  | nil =>
    have := encodeRune_length_pos r
    simp [hE] at this
  | cons b tl =>
    rw [hE] at hd
    simp only [List.cons_append] at hd ⊢
    rw [rangeRunes_cons, hd]
    simp

/-- The range loop reads back an encoded sequence of Unicode scalar values. -/
theorem rangeRunes_utf8Encode (rs : List Nat) (h : ∀ r ∈ rs, validRune r = true) :
    rangeRunes (utf8Encode rs) = rs := by
  induction rs with
  | nil => rfl
  | cons r rs ih =>
    simp only [utf8Encode]
    rw [rangeRunes_encodeRune_append r _ (h r (List.mem_cons_self r rs)),
      ih (fun q hq => h q (List.mem_cons_of_mem r hq))]

theorem rangeRunesFrom_valid (k : Nat) (s : GoString) :
    ∀ r ∈ rangeRunesFrom k s, validRune r = true := by
  induction s generalizing k with
  | nil => simp [rangeRunesFrom]
  | cons b rest ih =>
    cases k with
    | zero =>
      intro r hr
      simp only [rangeRunesFrom, List.mem_cons] at hr
      rcases hr with hr | hr
      · rw [hr]; exact decodeRune_valid _
      · exact ih _ r hr
    | succ k =>
      intro r hr
      simp only [rangeRunesFrom] at hr
      exact ih _ r hr

theorem rangeRunes_eq_nil (s : GoString) (h : rangeRunes s = []) : s = [] := by
  cases s with
  | nil => rfl
  | cons b rest => rw [rangeRunes_cons] at h; simp at h

theorem utf8Encode_append (a b : List Nat) :
    utf8Encode (a ++ b) = utf8Encode a ++ utf8Encode b := by
  induction a with
  | nil => rfl
  | cons r a ih => simp [utf8Encode, ih]

theorem utf8Encode_take_prefix (k : Nat) (rs : List Nat) :
    utf8Encode (rs.take k) <+: utf8Encode rs := by
  refine ⟨utf8Encode (rs.drop k), ?_⟩
  rw [← utf8Encode_append, List.take_append_drop]

/-- The loop of `TruncateString` appends the encodings of the next `maxChars - count`
runes. -/
theorem truncateLoop_eq (maxChars : Int) (rs : List Nat) (truncated : GoString) (count : Int) :
    truncateLoop maxChars rs truncated count
      = truncated ++ utf8Encode (rs.take (maxChars - count).toNat) := by
  induction rs generalizing truncated count with
  | nil => simp [truncateLoop, utf8Encode]
  | cons r rest ih =>
    unfold truncateLoop
    split_ifs with h
    · have h0 : (maxChars - count).toNat = 0 := by omega
      simp [h0, utf8Encode]
    · rw [ih]
      have h1 : (maxChars - count).toNat = (maxChars - (count + 1)).toNat + 1 := by omega
      rw [h1]
      simp [utf8Encode, List.append_assoc]

/-- The three exits of `TruncateString`. -/
theorem truncateString_cases (s : GoString) (maxChars : Int) :
    (maxChars ≤ 0 → TruncateString s maxChars = []) ∧
    (0 < maxChars → RuneCountInString s ≤ maxChars → TruncateString s maxChars = s) ∧
    (0 < maxChars → maxChars < RuneCountInString s →
      TruncateString s maxChars = utf8Encode ((rangeRunes s).take maxChars.toNat)) := by
  refine ⟨?_, ?_, ?_⟩
  · intro h
    simp [TruncateString, h]
  · intro h1 h2
    simp [TruncateString, Int.not_le.mpr h1, h2]
  · intro h1 h2
    simp [TruncateString, Int.not_le.mpr h1, Int.not_le.mpr h2, truncateLoop_eq]

/-- C12 as stated fails: the string of the bytes FF 61 62 has three runes (an invalid byte,
`a`, `b`); truncated to 2 characters it becomes EF BF BD 61, the encoding of U+FFFD
followed by `a`, which is not a prefix of the string. -/
theorem truncateString_not_prefix_counterexample :
    RuneCountInString [0xFF, 0x61, 0x62] = 3 ∧
    TruncateString [0xFF, 0x61, 0x62] 2 = [0xEF, 0xBF, 0xBD, 0x61] ∧
    ¬ (TruncateString [0xFF, 0x61, 0x62] 2 <+: [0xFF, 0x61, 0x62]) := by
  refine ⟨by decide, by decide, ?_⟩
  rw [show TruncateString [0xFF, 0x61, 0x62] 2 = [0xEF, 0xBF, 0xBD, 0x61] by decide]
  decide

/-- C12, amended: for every string `s` and every integer `maxChars`, the characters of `s`
being the runes a range loop yields (an invalid byte yielding U+FFFD),
`TruncateString(s, maxChars)` is empty when `maxChars ≤ 0`, is `s` itself when `s` has at
most `maxChars` characters, and otherwise is the UTF-8 encoding of the first `maxChars`
characters of `s`; it has exactly `min(max(maxChars, 0), runeCount(s))` characters;
`TruncateString` is idempotent for a fixed `maxChars`; and when `s` is valid UTF-8 (the
encoding of a sequence `rs` of Unicode scalar values) the result is the encoding of the
first `maxChars` of them and a prefix of `s`, so no multi-byte character is split. -/
theorem truncateString_spec (s : GoString) (maxChars : Int) :
    (maxChars ≤ 0 → TruncateString s maxChars = []) ∧
    (RuneCountInString s ≤ maxChars → TruncateString s maxChars = s) ∧
    (0 < maxChars → maxChars < RuneCountInString s →
      TruncateString s maxChars = utf8Encode ((rangeRunes s).take maxChars.toNat)) ∧
    RuneCountInString (TruncateString s maxChars)
      = min (max maxChars 0) (RuneCountInString s) ∧
    TruncateString (TruncateString s maxChars) maxChars = TruncateString s maxChars ∧
    (∀ rs : List Nat, (∀ r ∈ rs, validRune r = true) → s = utf8Encode rs →
      TruncateString s maxChars = utf8Encode (rs.take maxChars.toNat) ∧
      TruncateString s maxChars <+: s) := by
  obtain ⟨hEmpty, hWhole, hCut⟩ := truncateString_cases s maxChars
  have hCount : RuneCountInString (TruncateString s maxChars)
      = min (max maxChars 0) (RuneCountInString s) := by
    rcases Int.lt_or_le 0 maxChars with hPos | hNonpos
    · rcases Int.lt_or_le maxChars (RuneCountInString s) with hLong | hShort
      · rw [hCut hPos hLong]
        have hValid : ∀ r ∈ (rangeRunes s).take maxChars.toNat, validRune r = true :=
          fun r hr => rangeRunesFrom_valid 0 s r (List.mem_of_mem_take hr)
        simp only [RuneCountInString] at hLong ⊢
        rw [rangeRunes_utf8Encode _ hValid, List.length_take]
        omega
      · rw [hWhole hPos hShort]
        omega
    · rw [hEmpty hNonpos]
      have h0 : RuneCountInString [] = 0 := rfl
      have hs : 0 ≤ RuneCountInString s := by simp [RuneCountInString]
      omega
  refine ⟨hEmpty, ?_, hCut, hCount, ?_, ?_⟩
  · intro hShort
    rcases Int.lt_or_le 0 maxChars with hPos | hNonpos
    · exact hWhole hPos hShort
    · have hNil : rangeRunes s = [] := by
        simp only [RuneCountInString] at hShort
        exact List.length_eq_zero.mp (by omega)
      rw [hEmpty hNonpos, rangeRunes_eq_nil s hNil]
  · rcases Int.lt_or_le 0 maxChars with hPos | hNonpos
    · exact (truncateString_cases (TruncateString s maxChars) maxChars).2.1 hPos
        (by rw [hCount]; omega)
    · rw [(truncateString_cases (TruncateString s maxChars) maxChars).1 hNonpos,
        hEmpty hNonpos]
  · intro rs hValid hs
    have hRunes : rangeRunes s = rs := by rw [hs]; exact rangeRunes_utf8Encode rs hValid
    have hEq : TruncateString s maxChars = utf8Encode (rs.take maxChars.toNat) := by
      rcases Int.lt_or_le 0 maxChars with hPos | hNonpos
      · rcases Int.lt_or_le maxChars (RuneCountInString s) with hLong | hShort
        · rw [hCut hPos hLong, hRunes]
        · rw [hWhole hPos hShort]
          simp only [RuneCountInString, hRunes] at hShort
          rw [List.take_of_length_le (by omega)]
          exact hs
      · rw [hEmpty hNonpos]
        have h0 : maxChars.toNat = 0 := by omega
        rw [h0]
        rfl
    refine ⟨hEq, ?_⟩
    rw [hEq]
    conv_rhs => rw [hs]
    exact utf8Encode_take_prefix _ _

/-- C12 amended, at a concrete run: the text of `TestWechat_SendMessageWithTemplate`, forty
Chinese characters of three bytes each, truncated to 20 characters, is its first 60 bytes,
the encoding of its first 20 characters. -/
theorem truncateString_spec_witness :
    TruncateString (utf8Encode longTextRunes) 20 = utf8Encode (longTextRunes.take 20) ∧
    TruncateString (utf8Encode longTextRunes) 20 <+: utf8Encode longTextRunes ∧
    (TruncateString (utf8Encode longTextRunes) 20).length = 60 ∧
    (utf8Encode longTextRunes).length = 120 :=
  have h := (truncateString_spec (utf8Encode longTextRunes) 20).2.2.2.2.2 longTextRunes
    (by decide) rfl
  ⟨h.1, h.2, by decide, by decide⟩

end Wechat
